import Mathlib

/-!
Verification of the NGC-224 Game Boy emulator core.

This file is a shallow embedding of the parts of the Rust source involved in
the verified properties: the bit utilities (`src/gameboy/util.rs`), the CPU
register file (`src/gameboy/cpu/register.rs`), the CPU interrupt/stack logic
(`src/gameboy/cpu/cpu.rs`), the cartridge bank controllers
(`src/gameboy/cartridge/impl/mbc1.rs`, `mbc2.rs`, `mbc3.rs`), the PPU
(`src/gameboy/graphics/gpu.rs`, `lcd/register.rs`, `tile.rs`) and the MMU
(`src/gameboy/mmu.rs`).

Machine integers are embedded as `Nat` with explicit `% 256` / `% 65536`
where the Rust code truncates (`as u8` / `as u16` casts and wrapping
arithmetic).  Fallible code (Rust `panic!` / `unreachable!`) is embedded as
`Option`.  Shared interior-mutable cells (`Rc<RefCell<...>>`) are embedded as
plain state fields threaded through the functions that mutate them.
-/

set_option maxRecDepth 4096

/-! ## Bit utilities (`src/gameboy/util.rs`) -/

/-- `test_bit`: returns `true` if bit `b` of the byte `v` is 1. -/
def testBit (v b : Nat) : Bool :=
  v &&& (1 <<< b) != 0

/-- `clear_bit`: byte `v` with bit `b` forced to 0.  The Rust `!(1 << b)`
complements within `u8`, i.e. xors with `0xff`. -/
def clearBit (v b : Nat) : Nat :=
  v &&& (0xff ^^^ (1 <<< b))

/-- `set_bit`: byte `v` with bit `b` forced to 1. -/
def setBit (v b : Nat) : Nat :=
  v ||| (1 <<< b)

/-! ## Register file (`src/gameboy/cpu/register.rs`) -/

/-- The console variant (`Term` in `src/gameboy/mod.rs`). -/
inductive Term where
  | GB
  | GBP
  | GBC
  | SGB
deriving DecidableEq, Repr

/-- The CPU register file.  Each 8-bit field is a byte value, `PC`/`SP` are
16-bit values. -/
structure Register where
  A : Nat
  B : Nat
  C : Nat
  D : Nat
  E : Nat
  F : Nat
  H : Nat
  L : Nat
  PC : Nat
  SP : Nat
deriving DecidableEq, Repr

/-- `Register::new` — `Default::default()`, all fields zero. -/
def Register.new : Register :=
  ⟨0, 0, 0, 0, 0, 0, 0, 0, 0, 0⟩

/-- `Register::init`: fill the post-boot register values; only `A` depends on
the console variant. -/
def Register.init (r : Register) (term : Term) : Register :=
  let r := match term with
    | Term.GB => { r with A := 0x01 }
    | Term.GBP => { r with A := 0xff }
    | Term.GBC => { r with A := 0x11 }
    | Term.SGB => { r with A := 0x01 }
  { r with
    B := 0x00
    C := 0x13
    D := 0x00
    E := 0xD8
    F := 0xB0
    H := 0x01
    L := 0x4D
    PC := 0x0100
    SP := 0xFFFE }

/-- `Register::get_AF`: `(u16::from(A) << 8) | u16::from(F)`. -/
def Register.getAF (r : Register) : Nat :=
  (r.A <<< 8) ||| r.F

/-- `Register::get_BC`. -/
def Register.getBC (r : Register) : Nat :=
  (r.B <<< 8) ||| r.C

/-- `Register::get_DE`. -/
def Register.getDE (r : Register) : Nat :=
  (r.D <<< 8) ||| r.E

/-- `Register::get_HL`. -/
def Register.getHL (r : Register) : Nat :=
  (r.H <<< 8) ||| r.L

/-- `Register::set_AF`: `A = (v >> 8) as u8; F = (v & 0x00f0) as u8`.
The low nibble of `F` is masked away. -/
def Register.setAF (r : Register) (v : Nat) : Register :=
  { r with A := (v >>> 8) % 256, F := v &&& 0x00f0 }

/-- `Register::set_BC`: `B = (v >> 8) as u8; C = (v & 0x00ff) as u8`. -/
def Register.setBC (r : Register) (v : Nat) : Register :=
  { r with B := (v >>> 8) % 256, C := v &&& 0x00ff }

/-- `Register::set_DE`. -/
def Register.setDE (r : Register) (v : Nat) : Register :=
  { r with D := (v >>> 8) % 256, E := v &&& 0x00ff }

/-- `Register::set_HL`. -/
def Register.setHL (r : Register) (v : Nat) : Register :=
  { r with H := (v >>> 8) % 256, L := v &&& 0x00ff }

/-- `Register::set_PC`. -/
def Register.setPC (r : Register) (v : Nat) : Register :=
  { r with PC := v }

/-- `Register::set_SP`. -/
def Register.setSP (r : Register) (v : Nat) : Register :=
  { r with SP := v }

/-- The four CPU flags with their `u8` mask values (enum `Flag`). -/
inductive CpuFlag where
  | Zero
  | Sub
  | HalfCarry
  | Carry
deriving DecidableEq, Repr

/-- `Flag::value`: the flag's bit mask. -/
def CpuFlag.val : CpuFlag → Nat
  | CpuFlag.Zero => 0x80
  | CpuFlag.Sub => 0x40
  | CpuFlag.HalfCarry => 0x20
  | CpuFlag.Carry => 0x10

/-- `Register::is_flag_set`: `(F & flag.value()) != 0`. -/
def Register.isFlagSet (r : Register) (flag : CpuFlag) : Bool :=
  (r.F &&& flag.val) != 0

/-- `Register::set_flag`: `F = F | flag.value()`. -/
def Register.setFlag (r : Register) (flag : CpuFlag) : Register :=
  { r with F := r.F ||| flag.val }

/-- `Register::unset_flag`: `F = F & !flag.value()` (`u8` complement). -/
def Register.unsetFlag (r : Register) (flag : CpuFlag) : Register :=
  { r with F := r.F &&& (0xff ^^^ flag.val) }

/-- `Register::reverse_flag`. -/
def Register.reverseFlag (r : Register) (flag : CpuFlag) : Register :=
  if r.isFlagSet flag then r.unsetFlag flag else r.setFlag flag

/-! Helper lemmas about low nibbles of bytes. -/

/-- Two naturals agreeing on bits 0-3 agree modulo 16. -/
theorem mod16_eq_of_low_bits {a b : Nat}
    (h : ∀ i, i < 4 → a.testBit i = b.testBit i) : a % 16 = b % 16 := by
  have h16 : (16 : Nat) = 2 ^ 4 := by norm_num
  apply Nat.eq_of_testBit_eq
  intro i
  rw [h16, Nat.testBit_mod_two_pow, Nat.testBit_mod_two_pow]
  by_cases hi : i < 4
  · simp [hi, h i hi]
  · simp [hi]

/-- Or-ing in a mask whose low nibble is zero keeps the low nibble. -/
theorem lor_highmask_mod16 (x v : Nat) (hv : ∀ i, i < 4 → v.testBit i = false) :
    (x ||| v) % 16 = x % 16 := by
  apply mod16_eq_of_low_bits
  intro i hi
  rw [Nat.testBit_or, hv i hi, Bool.or_false]

/-- And-ing with a mask whose low nibble is all ones keeps the low nibble. -/
theorem land_lowones_mod16 (x v : Nat) (hv : ∀ i, i < 4 → v.testBit i = true) :
    (x &&& v) % 16 = x % 16 := by
  apply mod16_eq_of_low_bits
  intro i hi
  rw [Nat.testBit_and, hv i hi, Bool.and_true]

/-- C7. The low nibble of `F` is zero in every reachable CPU state: it is zero
after register initialization (`Register::init`), and every register-file
operation preserves it — `set_flag`, `unset_flag` and `reverse_flag` leave the
low nibble of `F` untouched, and `set_AF` (the operation behind `POP AF` and
every other 16-bit AF write) forces it to zero even when the source word has a
nonzero low nibble. -/
theorem c7_f_low_nibble_zero :
    (∀ (r : Register) (t : Term), (r.init t).F % 16 = 0) ∧
    (∀ (r : Register) (f : CpuFlag), (r.setFlag f).F % 16 = r.F % 16) ∧
    (∀ (r : Register) (f : CpuFlag), (r.unsetFlag f).F % 16 = r.F % 16) ∧
    (∀ (r : Register) (f : CpuFlag), (r.reverseFlag f).F % 16 = r.F % 16) ∧
    (∀ (r : Register) (v : Nat), (r.setAF v).F % 16 = 0) := by
  have hset : ∀ (r : Register) (f : CpuFlag), (r.setFlag f).F % 16 = r.F % 16 := by
    intro r f
    cases f <;>
      exact lor_highmask_mod16 _ _ (by decide)
  have hunset : ∀ (r : Register) (f : CpuFlag), (r.unsetFlag f).F % 16 = r.F % 16 := by
    intro r f
    cases f <;>
      exact land_lowones_mod16 _ _ (by decide)
  refine ⟨?_, hset, hunset, ?_, ?_⟩
  · intro r t
    cases t <;> simp [Register.init]
  · intro r f
    unfold Register.reverseFlag
    by_cases h : r.isFlagSet f
    · rw [if_pos h]
      exact hunset r f
    · rw [if_neg h]
      exact hset r f
  · intro r v
    show (v &&& 0x00f0) % 16 = 0
    apply mod16_eq_of_low_bits (b := 0)
    intro i hi
    rw [Nat.testBit_and]
    have : (0x00f0 : Nat).testBit i = false := by
      interval_cases i <;> decide
    simp [this]

/-! ## CPU core (`src/gameboy/cpu/cpu.rs`)

The CPU owns the register file, the halt flag, the IME flag and a handle to
the data bus (`Rc<RefCell<dyn IOHandler>>`).  The bus is embedded as flat
byte memory `mem : Nat → Nat`: `read_byte_from_memory` /
`write_byte_to_memory` forward to the bus's `read_byte` / `write_byte`, and
the addresses the verified paths use (`IF` at 0xff0f, `IE` at 0xffff, the
stack region) are plain byte cells in the MMU. -/

structure CPUState where
  reg : Register
  isHalt : Bool
  ime : Bool
  mem : Nat → Nat

/-- `CPU::read_byte_from_memory` — a bus read returns a byte; addresses are
16-bit. -/
def CPUState.readByte (s : CPUState) (addr : Nat) : Nat :=
  s.mem (addr % 65536) % 256

/-- `CPU::write_byte_to_memory`. -/
def CPUState.writeByte (s : CPUState) (addr data : Nat) : CPUState :=
  { s with mem := fun x => if x = addr % 65536 then data % 256 else s.mem x }

/-- `IOHandler::read_word`:
`u16::from(read_byte(a)) | u16::from(read_byte(a + 1)) << 8`
(the `a + 1` wraps as a `u16`). -/
def CPUState.readWord (s : CPUState) (addr : Nat) : Nat :=
  s.readByte addr ||| (s.readByte ((addr + 1) % 65536) <<< 8)

/-- `IOHandler::write_word`: low byte to `a`, high byte to `a + 1`. -/
def CPUState.writeWord (s : CPUState) (addr data : Nat) : CPUState :=
  (s.writeByte addr (data &&& 0xFF)).writeByte ((addr + 1) % 65536) ((data >>> 8) % 256)

/-- `CPU::_stack_push`: decrement SP by 2 (wrapping `u16` subtraction), then
write the word at the new SP. -/
def CPUState.stackPush (s : CPUState) (data : Nat) : CPUState :=
  let sp := s.reg.SP
  let newSp := (sp + 65536 - 2) % 65536
  let s := { s with reg := s.reg.setSP newSp }
  s.writeWord newSp data

/-- `CPU::_stack_pop`: read the word at SP, then increment SP by 2
(wrapping `u16` addition). -/
def CPUState.stackPop (s : CPUState) : CPUState × Nat :=
  let addr := s.reg.SP
  let data := s.readWord addr
  ({ s with reg := s.reg.setSP ((addr + 2) % 65536) }, data)

/-- `u8::trailing_zeros` on a byte, with the structural fuel of 8 bits. -/
def tzAux : Nat → Nat → Nat
  | 0, _ => 0
  | fuel + 1, x => if x % 2 = 1 then 0 else 1 + tzAux fuel (x / 2)

/-- `trailing_zeros` of a byte value. -/
def trailingZeros (x : Nat) : Nat :=
  tzAux 8 x

/-- `CPU::hi`: the interrupt-service check run at the start of every
instruction cycle.  Returns the new state and the M-cycle cost (0 when no
interrupt is dispatched). -/
def CPUState.hi (s : CPUState) : CPUState × Nat :=
  if !s.isHalt && !s.ime then (s, 0)
  else
    let intf := s.readByte 0xff0f
    let inte := s.readByte 0xffff
    let ii := intf &&& inte
    if ii = 0 then (s, 0)
    else
      let s := { s with isHalt := false }
      if !s.ime then (s, 0)
      else
        let s := { s with ime := false }
        let n := trailingZeros ii
        let intf := intf &&& (0xff ^^^ (1 <<< n))
        let s := s.writeByte 0xff0f intf
        let s := s.stackPush s.reg.PC
        let s := { s with reg := s.reg.setPC (0x0040 ||| (n <<< 3)) }
        (s, 4)

/-- `CPU::_next`: one instruction cycle.  The opcode interpreter
(`execute_opcode`, the 512-entry dispatch) is passed in as a parameter; the
interrupt/halt paths are embedded directly. -/
def CPUState.next (execute : CPUState → CPUState × Nat) (s : CPUState) : CPUState × Nat :=
  let p := s.hi
  if p.2 ≠ 0 then (p.1, p.2 * 4)
  else if p.1.isHalt then (p.1, 4)
  else execute p.1

/-! Push/pop opcode handlers used by the PUSH/POP round-trip law.
Each returns the extra-cycle count of the handler (always 0 here). -/

/-- Opcode 0xC5, `PUSH BC`. -/
def CPUState.op0xC5 (s : CPUState) : CPUState × Nat :=
  (s.stackPush s.reg.getBC, 0)

/-- Opcode 0xC1, `POP BC`. -/
def CPUState.op0xC1 (s : CPUState) : CPUState × Nat :=
  let p := s.stackPop
  ({ p.1 with reg := p.1.reg.setBC p.2 }, 0)

/-- Opcode 0xD5, `PUSH DE`. -/
def CPUState.op0xD5 (s : CPUState) : CPUState × Nat :=
  (s.stackPush s.reg.getDE, 0)

/-- Opcode 0xD1, `POP DE`. -/
def CPUState.op0xD1 (s : CPUState) : CPUState × Nat :=
  let p := s.stackPop
  ({ p.1 with reg := p.1.reg.setDE p.2 }, 0)

/-- Opcode 0xE5, `PUSH HL`. -/
def CPUState.op0xE5 (s : CPUState) : CPUState × Nat :=
  (s.stackPush s.reg.getHL, 0)

/-- Opcode 0xE1, `POP HL`. -/
def CPUState.op0xE1 (s : CPUState) : CPUState × Nat :=
  let p := s.stackPop
  ({ p.1 with reg := p.1.reg.setHL p.2 }, 0)

/-- Opcode 0xF5, `PUSH AF`. -/
def CPUState.op0xF5 (s : CPUState) : CPUState × Nat :=
  (s.stackPush s.reg.getAF, 0)

/-- Opcode 0xF1, `POP AF`. -/
def CPUState.op0xF1 (s : CPUState) : CPUState × Nat :=
  let p := s.stackPop
  ({ p.1 with reg := p.1.reg.setAF p.2 }, 0)

/-! Helper lemmas connecting the bit-level getters/setters with arithmetic. -/

/-- Packing a high byte and a low byte: `(h << 8) | l = h * 256 + l`. -/
theorem hi_lo_or (h l : Nat) (hl : l < 256) : (h <<< 8) ||| l = h * 256 + l := by
  have h1 : h <<< 8 = 2 ^ 8 * h := by
    rw [Nat.shiftLeft_eq]; ring
  have h2 := Nat.mul_add_lt_is_or (i := 8) (b := l) (by exact hl) h
  rw [h1, ← h2]
  ring

/-- A shifted-up byte has no bits in common with a byte value. -/
theorem shl8_land (h v : Nat) (hv : v < 256) : (h <<< 8) &&& v = 0 := by
  apply Nat.eq_of_testBit_eq
  intro i
  rw [Nat.testBit_and, Nat.zero_testBit]
  by_cases hi : i < 8
  · have h8 : ¬ (8 ≤ i) := by omega
    rw [Nat.testBit_shiftLeft]
    simp [h8]
  · have : v.testBit i = false := by
      apply Nat.testBit_lt_two_pow
      calc v < 256 := hv
        _ = 2 ^ 8 := by norm_num
        _ ≤ 2 ^ i := Nat.pow_le_pow_right (by norm_num) (by omega)
    simp [this]

/-- Masking with `0xff` is reduction mod 256. -/
theorem land_255 (v : Nat) : v &&& 0xff = v % 256 := by
  have := Nat.and_pow_two_sub_one_eq_mod v 8
  norm_num at this
  exact this

/-- Writing a byte then reading it back at the same address. -/
theorem writeByte_readByte_same (s : CPUState) (a v : Nat) :
    (s.writeByte a v).readByte a = v % 256 := by
  unfold CPUState.writeByte CPUState.readByte
  simp [Nat.mod_mod_of_dvd]

/-- Writing a byte leaves every other (16-bit-reduced) address unchanged. -/
theorem writeByte_readByte_other (s : CPUState) (a b v : Nat)
    (h : b % 65536 ≠ a % 65536) :
    (s.writeByte a v).readByte b = s.readByte b := by
  unfold CPUState.writeByte CPUState.readByte
  simp [h]

/-- Writing a 16-bit word then reading it back at the same address. -/
theorem readWord_writeWord (s : CPUState) (a v : Nat) (hv : v < 65536) :
    (s.writeWord a v).readWord a = v := by
  have hne : a % 65536 ≠ (a + 1) % 65536 % 65536 := by omega
  have hlo : ((s.writeByte a (v &&& 0xFF)).writeByte ((a + 1) % 65536)
      ((v >>> 8) % 256)).readByte a = v % 256 := by
    rw [writeByte_readByte_other _ _ _ _ (by omega), writeByte_readByte_same]
    rw [land_255]
    exact Nat.mod_mod_of_dvd v dvd_rfl
  have hhi : ((s.writeByte a (v &&& 0xFF)).writeByte ((a + 1) % 65536)
      ((v >>> 8) % 256)).readByte ((a + 1) % 65536) = v >>> 8 := by
    rw [writeByte_readByte_same]
    have : v >>> 8 < 256 := by
      rw [Nat.shiftRight_eq_div_pow]
      omega
    omega
  unfold CPUState.writeWord CPUState.readWord
  rw [hlo, hhi, Nat.or_comm, hi_lo_or _ _ (Nat.mod_lt _ (by norm_num))]
  rw [Nat.shiftRight_eq_div_pow]
  omega

/-- `_stack_push` followed by `_stack_pop` recovers the pushed word and
restores SP; no other register is touched. -/
theorem stackPush_stackPop (s : CPUState) (v : Nat) (hv : v < 65536)
    (hsp : s.reg.SP < 65536) :
    (s.stackPush v).stackPop.2 = v ∧
    (s.stackPush v).stackPop.1.reg.SP = s.reg.SP ∧
    (s.stackPush v).stackPop.1.reg.A = s.reg.A ∧
    (s.stackPush v).stackPop.1.reg.B = s.reg.B ∧
    (s.stackPush v).stackPop.1.reg.C = s.reg.C ∧
    (s.stackPush v).stackPop.1.reg.D = s.reg.D ∧
    (s.stackPush v).stackPop.1.reg.E = s.reg.E ∧
    (s.stackPush v).stackPop.1.reg.F = s.reg.F ∧
    (s.stackPush v).stackPop.1.reg.H = s.reg.H ∧
    (s.stackPush v).stackPop.1.reg.L = s.reg.L ∧
    (s.stackPush v).stackPop.1.reg.PC = s.reg.PC := by
  have hregSP : (s.stackPush v).reg.SP = (s.reg.SP + 65536 - 2) % 65536 := by
    simp [CPUState.stackPush, CPUState.writeWord, CPUState.writeByte, Register.setSP]
  have hpush : s.stackPush v =
      ({ s with reg := s.reg.setSP ((s.reg.SP + 65536 - 2) % 65536) }).writeWord
        ((s.reg.SP + 65536 - 2) % 65536) v := by
    simp [CPUState.stackPush]
  have hval : (s.stackPush v).stackPop.2 = v := by
    simp only [CPUState.stackPop]
    rw [hregSP, hpush]
    exact readWord_writeWord _ _ _ hv
  have hSPr : (s.stackPush v).stackPop.1.reg.SP = s.reg.SP := by
    simp only [CPUState.stackPop, Register.setSP]
    rw [hregSP]
    omega
  refine ⟨hval, hSPr, ?_, ?_, ?_, ?_, ?_, ?_, ?_, ?_, ?_⟩ <;>
    simp [CPUState.stackPop, CPUState.stackPush, CPUState.writeWord,
      CPUState.writeByte, Register.setSP]

/-- A byte with zero low nibble is fixed by masking with `0xf0`. -/
theorem land_f0_self (F : Nat) (hF : F < 256) (h16 : F % 16 = 0) :
    F &&& 0xf0 = F := by
  apply Nat.eq_of_testBit_eq
  intro i
  rw [Nat.testBit_and]
  by_cases h4 : i < 4
  · have h0 : (F % 16).testBit i = (decide (i < 4) && F.testBit i) := by
      have := Nat.testBit_mod_two_pow F 4 i
      rw [show (2 : Nat) ^ 4 = 16 by norm_num] at this
      exact this
    rw [h16] at h0
    simp only [Nat.zero_testBit] at h0
    simp [h4] at h0
    simp [h0]
  · by_cases h8 : i < 8
    · have : (0xf0 : Nat).testBit i = true := by
        interval_cases i <;> simp_all <;> decide
      simp [this]
    · have : F.testBit i = false := by
        apply Nat.testBit_lt_two_pow
        calc F < 256 := hF
          _ = 2 ^ 8 := by norm_num
          _ ≤ 2 ^ i := Nat.pow_le_pow_right (by norm_num) (by omega)
      simp [this]

/-- C9. For every register pair in {BC, DE, HL, AF} and every CPU state with
in-range register bytes and 16-bit SP, executing PUSH followed by POP (the
opcode handlers `op_0xC5`/`op_0xC1`, `op_0xD5`/`op_0xD1`, `op_0xE5`/`op_0xE1`,
`op_0xF5`/`op_0xF1`, which push to and pop from flat writable memory that
round-trips words) restores the pair and SP exactly; for AF this needs the
low nibble of F to be zero beforehand (`set_AF` forces it to zero again). -/
theorem c9_push_pop_roundtrip (s : CPUState)
    (hA : s.reg.A < 256) (hB : s.reg.B < 256) (hC : s.reg.C < 256)
    (hD : s.reg.D < 256) (hE : s.reg.E < 256) (hF : s.reg.F < 256)
    (hH : s.reg.H < 256) (hL : s.reg.L < 256) (hSP : s.reg.SP < 65536) :
    ((s.op0xC5.1.op0xC1).1.reg.B = s.reg.B ∧ (s.op0xC5.1.op0xC1).1.reg.C = s.reg.C ∧
      (s.op0xC5.1.op0xC1).1.reg.SP = s.reg.SP) ∧
    ((s.op0xD5.1.op0xD1).1.reg.D = s.reg.D ∧ (s.op0xD5.1.op0xD1).1.reg.E = s.reg.E ∧
      (s.op0xD5.1.op0xD1).1.reg.SP = s.reg.SP) ∧
    ((s.op0xE5.1.op0xE1).1.reg.H = s.reg.H ∧ (s.op0xE5.1.op0xE1).1.reg.L = s.reg.L ∧
      (s.op0xE5.1.op0xE1).1.reg.SP = s.reg.SP) ∧
    (s.reg.F % 16 = 0 →
      (s.op0xF5.1.op0xF1).1.reg.A = s.reg.A ∧ (s.op0xF5.1.op0xF1).1.reg.F = s.reg.F ∧
      (s.op0xF5.1.op0xF1).1.reg.SP = s.reg.SP) := by
  have hbc : s.reg.getBC = s.reg.B * 256 + s.reg.C := hi_lo_or _ _ hC
  have hde : s.reg.getDE = s.reg.D * 256 + s.reg.E := hi_lo_or _ _ hE
  have hhl : s.reg.getHL = s.reg.H * 256 + s.reg.L := hi_lo_or _ _ hL
  have haf : s.reg.getAF = s.reg.A * 256 + s.reg.F := hi_lo_or _ _ hF
  have hbc16 : s.reg.getBC < 65536 := by omega
  have hde16 : s.reg.getDE < 65536 := by omega
  have hhl16 : s.reg.getHL < 65536 := by omega
  have haf16 : s.reg.getAF < 65536 := by omega
  have pbc := stackPush_stackPop s s.reg.getBC hbc16 hSP
  have pde := stackPush_stackPop s s.reg.getDE hde16 hSP
  have phl := stackPush_stackPop s s.reg.getHL hhl16 hSP
  have paf := stackPush_stackPop s s.reg.getAF haf16 hSP
  have hshr : ∀ hi lo : Nat, hi < 256 → lo < 256 → (hi * 256 + lo) >>> 8 = hi := by
    intro hi lo h1 h2
    rw [Nat.shiftRight_eq_div_pow]
    norm_num
    omega
  refine ⟨⟨?_, ?_, ?_⟩, ⟨?_, ?_, ?_⟩, ⟨?_, ?_, ?_⟩, ?_⟩
  · simp only [CPUState.op0xC5, CPUState.op0xC1, Register.setBC]
    rw [pbc.1, hbc, hshr _ _ hB hC]
    omega
  · simp only [CPUState.op0xC5, CPUState.op0xC1, Register.setBC]
    rw [pbc.1, land_255, hbc]
    omega
  · simp only [CPUState.op0xC5, CPUState.op0xC1, Register.setBC]
    exact pbc.2.1
  · simp only [CPUState.op0xD5, CPUState.op0xD1, Register.setDE]
    rw [pde.1, hde, hshr _ _ hD hE]
    omega
  · simp only [CPUState.op0xD5, CPUState.op0xD1, Register.setDE]
    rw [pde.1, land_255, hde]
    omega
  · simp only [CPUState.op0xD5, CPUState.op0xD1, Register.setDE]
    exact pde.2.1
  · simp only [CPUState.op0xE5, CPUState.op0xE1, Register.setHL]
    rw [phl.1, hhl, hshr _ _ hH hL]
    omega
  · simp only [CPUState.op0xE5, CPUState.op0xE1, Register.setHL]
    rw [phl.1, land_255, hhl]
    omega
  · simp only [CPUState.op0xE5, CPUState.op0xE1, Register.setHL]
    exact phl.2.1
  · intro h16
    refine ⟨?_, ?_, ?_⟩
    · simp only [CPUState.op0xF5, CPUState.op0xF1, Register.setAF]
      rw [paf.1, haf, hshr _ _ hA hF]
      omega
    · simp only [CPUState.op0xF5, CPUState.op0xF1, Register.setAF]
      rw [paf.1]
      show s.reg.getAF &&& 0x00f0 = s.reg.F
      have hunfold : s.reg.getAF = (s.reg.A <<< 8) ||| s.reg.F := rfl
      rw [hunfold, Nat.and_distrib_right, shl8_land _ _ (by norm_num),
        Nat.zero_or, land_f0_self _ hF h16]
    · simp only [CPUState.op0xF5, CPUState.op0xF1, Register.setAF]
      exact paf.2.1

/-- A concrete CPU state (post-boot register values, zeroed memory) used to
witness the stack round-trip law. -/
def cpu0 : CPUState :=
  { reg := { A := 0x12, B := 0x34, C := 0x56, D := 0x78, E := 0x9A,
             F := 0xB0, H := 0xBC, L := 0xDE, PC := 0x0100, SP := 0xFFFE },
    isHalt := false, ime := true, mem := fun _ => 0 }

/-- Witness for C9 at the concrete state `cpu0`. -/
theorem c9_push_pop_roundtrip_witness :
    ((cpu0.op0xC5.1.op0xC1).1.reg.B = cpu0.reg.B ∧
      (cpu0.op0xC5.1.op0xC1).1.reg.C = cpu0.reg.C ∧
      (cpu0.op0xC5.1.op0xC1).1.reg.SP = cpu0.reg.SP) ∧
    ((cpu0.op0xD5.1.op0xD1).1.reg.D = cpu0.reg.D ∧
      (cpu0.op0xD5.1.op0xD1).1.reg.E = cpu0.reg.E ∧
      (cpu0.op0xD5.1.op0xD1).1.reg.SP = cpu0.reg.SP) ∧
    ((cpu0.op0xE5.1.op0xE1).1.reg.H = cpu0.reg.H ∧
      (cpu0.op0xE5.1.op0xE1).1.reg.L = cpu0.reg.L ∧
      (cpu0.op0xE5.1.op0xE1).1.reg.SP = cpu0.reg.SP) ∧
    ((cpu0.op0xF5.1.op0xF1).1.reg.A = cpu0.reg.A ∧
      (cpu0.op0xF5.1.op0xF1).1.reg.F = cpu0.reg.F ∧
      (cpu0.op0xF5.1.op0xF1).1.reg.SP = cpu0.reg.SP) := by
  have h := c9_push_pop_roundtrip cpu0 (by decide) (by decide) (by decide)
    (by decide) (by decide) (by decide) (by decide) (by decide) (by decide)
  exact ⟨h.1, h.2.1, h.2.2.1, h.2.2.2 (by decide)⟩

/-! Facts about `trailing_zeros` and bit clearing on byte values, established
by exhaustive check over the 8-bit range. -/

/-- For a nonzero byte, `trailing_zeros` names a set bit, everything below it
is zero, and it is below 8. -/
theorem tz_byte_spec : ∀ x, x < 256 → x ≠ 0 →
    Nat.testBit x (trailingZeros x) = true ∧
    x % 2 ^ trailingZeros x = 0 ∧ trailingZeros x < 8 := by
  decide

/-- `x & !(1 << n)` clears exactly bit `n` of a byte: when bit `n` is set the
result is `x - 2^n`. -/
theorem land_clear_bit : ∀ x, x < 256 → ∀ n, n < 8 → Nat.testBit x n = true →
    x &&& (0xff ^^^ (1 <<< n)) = x - 2 ^ n := by
  decide

/-- The interrupt vector: `0x0040 | (n << 3) = 0x0040 + 8 * n` for `n < 8`. -/
theorem vector_or_eq_add : ∀ n, n < 8 → 0x0040 ||| (n <<< 3) = 0x0040 + 8 * n := by
  decide

/-- C1. When the CPU begins an instruction cycle (`CPU::_next`) with IME true
and some interrupt both requested and enabled (`IF & IE != 0`), it dispatches
that interrupt: IME is cleared, the halt flag is cleared, exactly the
lowest-numbered pending bit is cleared in IF (bit `n` is pending and all
lower bits of `IF & IE` are clear, and IF loses `2^n`), the old PC is pushed
at the decremented SP (SP decreases by 2 mod 2^16 and the pushed word reads
back as the old PC), PC becomes `0x0040 + 8*n`, the cycle costs 16 T-cycles,
and all eight data registers are unchanged.  The two stack cells are assumed
not to alias the IF register. -/
theorem c1_interrupt_dispatch (execute : CPUState → CPUState × Nat) (s : CPUState)
    (hime : s.ime = true)
    (hii : s.readByte 0xff0f &&& s.readByte 0xffff ≠ 0)
    (hPC : s.reg.PC < 65536)
    (ha1 : (s.reg.SP + 65536 - 2) % 65536 ≠ 0xff0f)
    (ha2 : ((s.reg.SP + 65536 - 2) % 65536 + 1) % 65536 ≠ 0xff0f) :
    (CPUState.next execute s).2 = 16 ∧
    (CPUState.next execute s).1.ime = false ∧
    (CPUState.next execute s).1.isHalt = false ∧
    (CPUState.next execute s).1.reg.PC =
      0x0040 + 8 * trailingZeros (s.readByte 0xff0f &&& s.readByte 0xffff) ∧
    Nat.testBit (s.readByte 0xff0f &&& s.readByte 0xffff)
      (trailingZeros (s.readByte 0xff0f &&& s.readByte 0xffff)) = true ∧
    (s.readByte 0xff0f &&& s.readByte 0xffff) %
      2 ^ trailingZeros (s.readByte 0xff0f &&& s.readByte 0xffff) = 0 ∧
    (CPUState.next execute s).1.reg.SP = (s.reg.SP + 65536 - 2) % 65536 ∧
    (CPUState.next execute s).1.readWord ((s.reg.SP + 65536 - 2) % 65536) = s.reg.PC ∧
    (CPUState.next execute s).1.readByte 0xff0f =
      s.readByte 0xff0f - 2 ^ trailingZeros (s.readByte 0xff0f &&& s.readByte 0xffff) ∧
    (CPUState.next execute s).1.reg.A = s.reg.A ∧
    (CPUState.next execute s).1.reg.B = s.reg.B ∧
    (CPUState.next execute s).1.reg.C = s.reg.C ∧
    (CPUState.next execute s).1.reg.D = s.reg.D ∧
    (CPUState.next execute s).1.reg.E = s.reg.E ∧
    (CPUState.next execute s).1.reg.F = s.reg.F ∧
    (CPUState.next execute s).1.reg.H = s.reg.H ∧
    (CPUState.next execute s).1.reg.L = s.reg.L := by
  have hIlt : s.readByte 0xff0f < 256 := by
    unfold CPUState.readByte
    exact Nat.mod_lt _ (by norm_num)
  have hIIlt : s.readByte 0xff0f &&& s.readByte 0xffff < 256 :=
    lt_of_le_of_lt Nat.and_le_left hIlt
  have htz := tz_byte_spec _ hIIlt hii
  have hbit_if : Nat.testBit (s.readByte 0xff0f)
      (trailingZeros (s.readByte 0xff0f &&& s.readByte 0xffff)) = true := by
    have h := htz.1
    simp only [Nat.testBit_land, Bool.and_eq_true] at h
    exact h.1
  have hhi : s.hi =
      (let s2 : CPUState := { s with isHalt := false, ime := false }
       let n := trailingZeros (s.readByte 0xff0f &&& s.readByte 0xffff)
       let s3 := s2.writeByte 0xff0f (s.readByte 0xff0f &&& (0xff ^^^ (1 <<< n)))
       let s4 := s3.stackPush s.reg.PC
       ({ s4 with reg := s4.reg.setPC (0x0040 ||| (n <<< 3)) }, 4)) := by
    simp only [CPUState.hi]
    simp [hime, hii, CPUState.writeByte]
  have h42 : s.hi.2 = 4 := by rw [hhi]
  have h41 : s.hi.1 =
      (let s2 : CPUState := { s with isHalt := false, ime := false }
       let n := trailingZeros (s.readByte 0xff0f &&& s.readByte 0xffff)
       let s3 := s2.writeByte 0xff0f (s.readByte 0xff0f &&& (0xff ^^^ (1 <<< n)))
       let s4 := s3.stackPush s.reg.PC
       ({ s4 with reg := s4.reg.setPC (0x0040 ||| (n <<< 3)) } : CPUState)) := by
    rw [hhi]
  have hnext1 : (CPUState.next execute s).1 = s.hi.1 := by
    simp only [CPUState.next]
    rw [h42]
    norm_num
  have hnext2 : (CPUState.next execute s).2 = 16 := by
    simp only [CPUState.next]
    rw [h42]
    norm_num
  have hmm : ∀ a : Nat, a % 65536 % 65536 = a % 65536 := fun a =>
    Nat.mod_mod_of_dvd a dvd_rfl
  have ha1' : ¬((65295 : Nat) = (s.reg.SP + 65536 - 2) % 65536) := fun h => ha1 h.symm
  have ha2' : ¬((65295 : Nat) = ((s.reg.SP + 65536 - 2) % 65536 + 1) % 65536) := fun h =>
    ha2 h.symm
  have hWlt : s.readByte 0xff0f &&&
      (0xff ^^^ (1 <<< trailingZeros (s.readByte 0xff0f &&& s.readByte 0xffff))) < 256 :=
    lt_of_le_of_lt Nat.and_le_left hIlt
  have hclear := land_clear_bit (s.readByte 0xff0f) hIlt
    (trailingZeros (s.readByte 0xff0f &&& s.readByte 0xffff)) htz.2.2 hbit_if
  rw [hnext1, hnext2, h41]
  refine ⟨rfl, ?_, ?_, ?_, htz.1, htz.2.1, ?_, ?_, ?_, ?_, ?_, ?_, ?_, ?_, ?_, ?_, ?_⟩
  · simp [CPUState.stackPush, CPUState.writeWord, CPUState.writeByte]
  · simp [CPUState.stackPush, CPUState.writeWord, CPUState.writeByte]
  · simp [CPUState.stackPush, CPUState.writeWord, CPUState.writeByte, Register.setSP,
      Register.setPC]
    exact vector_or_eq_add _ htz.2.2
  · simp [CPUState.stackPush, CPUState.writeWord, CPUState.writeByte, Register.setSP,
      Register.setPC]
  · -- the pushed word reads back as the old PC
    have hcongr : ∀ (t u : CPUState) (a : Nat), t.mem = u.mem →
        t.readWord a = u.readWord a := by
      intro t u a h
      simp [CPUState.readWord, CPUState.readByte, h]
    set s3 := ({ s with isHalt := false, ime := false } : CPUState).writeByte 0xff0f
      (s.readByte 0xff0f &&&
        (0xff ^^^ (1 <<< trailingZeros (s.readByte 0xff0f &&& s.readByte 0xffff)))) with hs3
    have hmemeq :
        ({ s3.stackPush s.reg.PC with
            reg := (s3.stackPush s.reg.PC).reg.setPC
              (0x0040 ||| (trailingZeros (s.readByte 0xff0f &&& s.readByte 0xffff) <<< 3)) }
          : CPUState).mem =
        (({ s3 with reg := s3.reg.setSP ((s.reg.SP + 65536 - 2) % 65536) }).writeWord
          ((s.reg.SP + 65536 - 2) % 65536) s.reg.PC).mem := by
      simp [hs3, CPUState.stackPush, CPUState.writeWord, CPUState.writeByte, Register.setSP]
    rw [hcongr _ _ _ hmemeq]
    exact readWord_writeWord _ _ _ hPC
  · -- IF has exactly the serviced bit cleared
    simp only [CPUState.stackPush, CPUState.writeWord, CPUState.writeByte,
      CPUState.readByte, Register.setSP]
    have ha2b : ¬((65295 : Nat) = (s.reg.SP + 65536 - 2 + 1) % 65536) := by
      have h := ha2
      rw [Nat.mod_add_mod] at h
      exact fun hx => h hx.symm
    norm_num [hmm, ha1', ha2b]
    have hclear2 := hclear
    have hWlt2 := hWlt
    simp only [CPUState.readByte] at hclear2 hWlt2
    norm_num at hclear2 hWlt2
    rw [Nat.mod_eq_of_lt hWlt2]
    exact hclear2
  · simp [CPUState.stackPush, CPUState.writeWord, CPUState.writeByte, Register.setSP,
      Register.setPC]
  · simp [CPUState.stackPush, CPUState.writeWord, CPUState.writeByte, Register.setSP,
      Register.setPC]
  · simp [CPUState.stackPush, CPUState.writeWord, CPUState.writeByte, Register.setSP,
      Register.setPC]
  · simp [CPUState.stackPush, CPUState.writeWord, CPUState.writeByte, Register.setSP,
      Register.setPC]
  · simp [CPUState.stackPush, CPUState.writeWord, CPUState.writeByte, Register.setSP,
      Register.setPC]
  · simp [CPUState.stackPush, CPUState.writeWord, CPUState.writeByte, Register.setSP,
      Register.setPC]
  · simp [CPUState.stackPush, CPUState.writeWord, CPUState.writeByte, Register.setSP,
      Register.setPC]
  · simp [CPUState.stackPush, CPUState.writeWord, CPUState.writeByte, Register.setSP,
      Register.setPC]

/-- A concrete CPU state with IF = 0x0A and IE = 0x0E (lowest pending bit is
bit 1, the LCD-STAT interrupt), used to witness the dispatch theorem. -/
def cpu1 : CPUState :=
  { reg := { A := 0x01, B := 0x00, C := 0x13, D := 0x00, E := 0xD8,
             F := 0xB0, H := 0x01, L := 0x4D, PC := 0x0100, SP := 0xFFFE },
    isHalt := false, ime := true,
    mem := fun a => if a = 0xff0f then 0x0A else if a = 0xffff then 0x0E else 0 }

/-- Witness for C1 at the concrete state `cpu1`. -/
theorem c1_interrupt_dispatch_witness :
    (CPUState.next (fun t => (t, 0)) cpu1).2 = 16 ∧
    (CPUState.next (fun t => (t, 0)) cpu1).1.ime = false ∧
    (CPUState.next (fun t => (t, 0)) cpu1).1.isHalt = false ∧
    (CPUState.next (fun t => (t, 0)) cpu1).1.reg.PC =
      0x0040 + 8 * trailingZeros (cpu1.readByte 0xff0f &&& cpu1.readByte 0xffff) ∧
    Nat.testBit (cpu1.readByte 0xff0f &&& cpu1.readByte 0xffff)
      (trailingZeros (cpu1.readByte 0xff0f &&& cpu1.readByte 0xffff)) = true ∧
    (cpu1.readByte 0xff0f &&& cpu1.readByte 0xffff) %
      2 ^ trailingZeros (cpu1.readByte 0xff0f &&& cpu1.readByte 0xffff) = 0 ∧
    (CPUState.next (fun t => (t, 0)) cpu1).1.reg.SP = (cpu1.reg.SP + 65536 - 2) % 65536 ∧
    (CPUState.next (fun t => (t, 0)) cpu1).1.readWord
      ((cpu1.reg.SP + 65536 - 2) % 65536) = cpu1.reg.PC ∧
    (CPUState.next (fun t => (t, 0)) cpu1).1.readByte 0xff0f =
      cpu1.readByte 0xff0f -
        2 ^ trailingZeros (cpu1.readByte 0xff0f &&& cpu1.readByte 0xffff) ∧
    (CPUState.next (fun t => (t, 0)) cpu1).1.reg.A = cpu1.reg.A ∧
    (CPUState.next (fun t => (t, 0)) cpu1).1.reg.B = cpu1.reg.B ∧
    (CPUState.next (fun t => (t, 0)) cpu1).1.reg.C = cpu1.reg.C ∧
    (CPUState.next (fun t => (t, 0)) cpu1).1.reg.D = cpu1.reg.D ∧
    (CPUState.next (fun t => (t, 0)) cpu1).1.reg.E = cpu1.reg.E ∧
    (CPUState.next (fun t => (t, 0)) cpu1).1.reg.F = cpu1.reg.F ∧
    (CPUState.next (fun t => (t, 0)) cpu1).1.reg.H = cpu1.reg.H ∧
    (CPUState.next (fun t => (t, 0)) cpu1).1.reg.L = cpu1.reg.L :=
  c1_interrupt_dispatch (fun t => (t, 0)) cpu1 (by decide) (by decide) (by decide)
    (by decide) (by decide)

/-! ## Cartridge bank controllers (`src/gameboy/cartridge/`)

The `meta` and `sav_path` fields (header metadata and the battery-save file
path) do not affect the read/write semantics and are omitted.  A Rust
`panic!` is embedded as `Option.none`. -/

/-- `BankMode` (`src/gameboy/cartridge/bank.rs`). -/
inductive BankMode where
  | Rom
  | Ram
deriving DecidableEq, Repr

/-- The MBC1 chip state (`src/gameboy/cartridge/impl/mbc1.rs`). -/
structure MBC1 where
  rom : List Nat
  ram : List Nat
  bankMode : BankMode
  bankReg : Nat
  ramEnabled : Bool
deriving DecidableEq, Repr

/-- `MBC1::new`: `bank_mode = Rom`, `bank_reg = 0x01`, `ram_enabled = false`. -/
def MBC1.new (rom ram : List Nat) : MBC1 :=
  { rom := rom, ram := ram, bankMode := BankMode.Rom, bankReg := 0x01,
    ramEnabled := false }

/-- `MBC1::get_rom_bank_num`. -/
def MBC1.getRomBankNum (m : MBC1) : Nat :=
  match m.bankMode with
  | BankMode.Rom => m.bankReg &&& 0x7f
  | BankMode.Ram => m.bankReg &&& 0x1f

/-- `MBC1::get_ram_bank_num`. -/
def MBC1.getRamBankNum (m : MBC1) : Nat :=
  match m.bankMode with
  | BankMode.Rom => 0x00
  | BankMode.Ram => (m.bankReg &&& 0x60) >>> 5

/-- `MBC1::read_via_rom_bank`: banked ROM read, 0 past the end of ROM. -/
def MBC1.readViaRomBank (m : MBC1) (addr : Nat) : Nat :=
  let bankAddr := 0x4000 * m.getRomBankNum + (addr - 0x4000)
  if bankAddr < m.rom.length then m.rom.getD bankAddr 0 else 0x00

/-- `MBC1::read_via_ram_bank`: 0 when RAM is disabled or out of range. -/
def MBC1.readViaRamBank (m : MBC1) (addr : Nat) : Nat :=
  if !m.ramEnabled then 0x00
  else
    let bankAddr := 0x2000 * m.getRamBankNum + (addr - 0xa000)
    if bankAddr < m.ram.length then m.ram.getD bankAddr 0 else 0x00

/-- `MBC1::write_via_ram_bank`: dropped when RAM is disabled or out of range. -/
def MBC1.writeViaRamBank (m : MBC1) (addr value : Nat) : MBC1 :=
  if !m.ramEnabled then m
  else
    let bankAddr := 0x2000 * m.getRamBankNum + (addr - 0xa000)
    if bankAddr < m.ram.length then { m with ram := m.ram.set bankAddr value }
    else m

/-- `MBC1::read_byte` (`impl IOHandler for MBC1`).  The fixed-bank arm
indexes the ROM image directly (`getD` with default 0 stands in for the
always-in-bounds index on a well-formed, at least 32 KiB, ROM). -/
def MBC1.readByte (m : MBC1) (addr : Nat) : Nat :=
  if addr ≤ 0x3fff then m.rom.getD addr 0
  else if 0x4000 ≤ addr ∧ addr ≤ 0x7fff then m.readViaRomBank addr
  else if 0xa000 ≤ addr ∧ addr ≤ 0xbfff then m.readViaRamBank addr
  else 0x00

/-- `MBC1::write_byte` (`impl IOHandler for MBC1`).  Writing a value other
than 0x00/0x01 to the 0x6000-0x7FFF mode-select range is a `panic!` in the
source, embedded as `none`. -/
def MBC1.writeByte (m : MBC1) (addr value : Nat) : Option MBC1 :=
  if addr ≤ 0x1fff then
    if value &&& 0x0f = 0x0a then some { m with ramEnabled := true }
    else some { m with ramEnabled := false }
  else if addr ≤ 0x3fff then
    let n := value &&& 0x1f
    let n := if n = 0x00 then 0x01 else n
    some { m with bankReg := (m.bankReg &&& 0x60) ||| n }
  else if addr ≤ 0x5fff then
    let n := value &&& 0x03
    some { m with bankReg := m.bankReg &&& 0x9f ||| (n <<< 5) }
  else if addr ≤ 0x7fff then
    match value with
    | 0x00 => some { m with bankMode := BankMode.Rom }
    | 0x01 => some { m with bankMode := BankMode.Ram }
    | _ => none
  else if 0xa000 ≤ addr ∧ addr ≤ 0xbfff then
    some (m.writeViaRamBank addr value)
  else
    some m

/-- The MBC2 chip state (`src/gameboy/cartridge/impl/mbc2.rs`). -/
structure MBC2 where
  rom : List Nat
  ram : List Nat
  romBank : Nat
  ramEnabled : Bool
deriving DecidableEq, Repr

/-- `MBC2::new`: `rom_bank = 1`, `ram_enabled = false`. -/
def MBC2.new (rom ram : List Nat) : MBC2 :=
  { rom := rom, ram := ram, romBank := 1, ramEnabled := false }

/-- `MBC2::read_via_rom_bank`. -/
def MBC2.readViaRomBank (m : MBC2) (addr : Nat) : Nat :=
  let bankAddr := 0x4000 * m.romBank + (addr - 0x4000)
  if bankAddr < m.rom.length then m.rom.getD bankAddr 0 else 0x00

/-- `MBC2::read_via_ram_bank`.  Note the source tests `!self.ram_enabled`:
it returns the RAM byte when the latch is DISABLED and 0 when it is
enabled. -/
def MBC2.readViaRamBank (m : MBC2) (addr : Nat) : Nat :=
  if !m.ramEnabled then m.ram.getD (addr - 0xa000) 0 else 0x00

/-- `MBC2::write_via_ram_bank`. -/
def MBC2.writeViaRamBank (m : MBC2) (addr value : Nat) : MBC2 :=
  if !m.ramEnabled then m
  else
    let bankAddr := addr - 0xa000
    if bankAddr < m.ram.length then { m with ram := m.ram.set bankAddr value }
    else m

/-- `MBC2::read_byte`.  As for MBC1, the fixed-bank ROM arm indexes the ROM
image directly. -/
def MBC2.readByte (m : MBC2) (addr : Nat) : Nat :=
  if addr ≤ 0x3fff then m.rom.getD addr 0
  else if 0x4000 ≤ addr ∧ addr ≤ 0x7fff then m.readViaRomBank addr
  else if 0xa000 ≤ addr ∧ addr ≤ 0xa1ff then m.readViaRamBank addr
  else 0x00

/-- `MBC2::write_byte`.  The 0x2000-0x3FFF arm keeps the source's comparison
`addr & 0x0100 == 1` verbatim (the value `addr & 0x0100` is either 0 or
0x100, never 1). -/
def MBC2.writeByte (m : MBC2) (addr value : Nat) : MBC2 :=
  if addr ≤ 0x1fff then
    if addr &&& 0x0100 = 0 then
      if value &&& 0x0f = 0x0a then { m with ramEnabled := true }
      else { m with ramEnabled := false }
    else m
  else if addr ≤ 0x3fff then
    if addr &&& 0x0100 = 1 then { m with romBank := value &&& 0x0f }
    else m
  else if 0xa000 ≤ addr ∧ addr ≤ 0xa1ff then
    m.writeViaRamBank addr (value &&& 0x0f)
  else m

/-- The MBC3 real-time clock state (`src/gameboy/cartridge/rtc.rs`); the
save path is omitted, the persisted epoch is the `zero` field. -/
structure RealTimeClock where
  s : Nat
  m : Nat
  h : Nat
  dl : Nat
  dh : Nat
  zero : Nat
  isLocked : Bool
deriving DecidableEq, Repr

/-- `RealTimeClock::get`: invalid selectors `panic!`. -/
def RealTimeClock.get (c : RealTimeClock) (a : Nat) : Option Nat :=
  if a = 0x08 then some c.s
  else if a = 0x09 then some c.m
  else if a = 0x0a then some c.h
  else if a = 0x0b then some c.dl
  else if a = 0x0c then some c.dh
  else none

/-- The MBC3 chip state (`src/gameboy/cartridge/impl/mbc3.rs`). -/
structure MBC3 where
  rom : List Nat
  ram : List Nat
  rtc : RealTimeClock
  romBank : Nat
  ramBank : Nat
  ramEnabled : Bool
deriving DecidableEq, Repr

/-- `MBC3::read_via_ram_bank`: RAM banks 0-3 index RAM (a `panic!` on an
out-of-range index is embedded as `none`), larger selectors read the RTC;
disabled RAM reads 0. -/
def MBC3.readViaRamBank (m : MBC3) (addr : Nat) : Option Nat :=
  if m.ramEnabled then
    if m.ramBank ≤ 0x03 then
      let i := m.ramBank * 0x2000 + addr - 0xa000
      if h : i < m.ram.length then some (m.ram.get ⟨i, h⟩) else none
    else m.rtc.get m.ramBank
  else some 0x00

/-- `addr & 0x0100` is either 0 or 0x100, never 1. -/
theorem land_256_ne_one (a : Nat) : a &&& 0x0100 ≠ 1 := by
  have h : a &&& 0x0100 = (a.testBit 8).toNat * 2 ^ 8 := by
    have := Nat.and_two_pow a 8
    norm_num at this ⊢
    exact this
  rw [h]
  cases a.testBit 8 <;> simp

/-- C2 (code bug).  Writes to 0x2000-0x3FFF never change any MBC2 state: the
source guards the ROM-bank assignment with `addr & 0x0100 == 1`, which is
never true, so the claimed "bit 8 of the address set selects the ROM bank"
behaviour is dead code.  At the failing input (address 0x2100, bit 8 set,
value 0x05) the write leaves the ROM-bank register at its reset value 1. -/
theorem c2_mbc2_rom_bank_write_dead :
    (∀ (m : MBC2) (a v : Nat), 0x2000 ≤ a → a ≤ 0x3fff → m.writeByte a v = m) ∧
    Nat.testBit 0x2100 8 = true ∧
    (MBC2.new [] []).writeByte 0x2100 0x05 = MBC2.new [] [] ∧
    ((MBC2.new [] []).writeByte 0x2100 0x05).romBank = 1 := by
  have huniv : ∀ (m : MBC2) (a v : Nat), 0x2000 ≤ a → a ≤ 0x3fff →
      m.writeByte a v = m := by
    intro m a v h1 h2
    unfold MBC2.writeByte
    rw [if_neg (by omega), if_pos (by omega), if_neg (land_256_ne_one a)]
  refine ⟨huniv, by decide, huniv _ _ _ (by norm_num) (by norm_num), ?_⟩
  rw [huniv _ _ _ (by norm_num) (by norm_num)]
  rfl

/-- Witness for C2's universal part at the failing input 0x2100 / 0x05. -/
theorem c2_mbc2_rom_bank_write_dead_witness :
    (MBC2.new [0x11] [0x22]).writeByte 0x2100 0x05 = MBC2.new [0x11] [0x22] :=
  c2_mbc2_rom_bank_write_dead.1 (MBC2.new [0x11] [0x22]) 0x2100 0x05
    (by norm_num) (by norm_num)

/-- C5 counterexample.  The claim says an invalid MBC1 mode-select value is a
non-fatal warning treated as ROM mode; in the source `MBC1::write_byte`
hits `panic!("Invalid value: {}")`, i.e. there is no resulting state. -/
theorem c5_mbc1_mode_select_counterexample :
    (MBC1.new [] []).writeByte 0x6000 0x02 = none := by
  decide

/-- C5 (amended).  Writing any value other than 0x00 or 0x01 to an address in
0x6000-0x7FFF makes `MBC1::write_byte` panic (`none`): the write is fatal,
not a logged warning, and no successor cartridge state exists. -/
theorem c5_mbc1_mode_select_panics (m : MBC1) (a v : Nat)
    (h1 : 0x6000 ≤ a) (h2 : a ≤ 0x7fff) (hv0 : v ≠ 0x00) (hv1 : v ≠ 0x01) :
    m.writeByte a v = none := by
  unfold MBC1.writeByte
  rw [if_neg (by omega), if_neg (by omega), if_neg (by omega), if_pos (by omega)]
  match v, hv0, hv1 with
  | v + 2, _, _ => rfl

/-- Witness for the amended C5 at address 0x6000, value 0x02. -/
theorem c5_mbc1_mode_select_panics_witness :
    (MBC1.new [0x11] [0x22]).writeByte 0x6000 0x02 = none :=
  c5_mbc1_mode_select_panics (MBC1.new [0x11] [0x22]) 0x6000 0x02
    (by norm_num) (by norm_num) (by norm_num) (by norm_num)

/-- A concrete MBC2 state whose RAM-enable latch is false but whose built-in
RAM holds 0x42 at offset 0. -/
def mbc2bug : MBC2 :=
  { rom := [], ram := [0x42], romBank := 1, ramEnabled := false }

/-- C6 (code bug).  MBC1 and MBC3 return 0x00 when external RAM is read with
the enable latch false, but MBC2's `read_via_ram_bank` inverts the test: with
the latch false it returns the RAM byte (0x42 at the failing input, not
0x00), and with the latch true it returns 0. -/
theorem c6_disabled_ram_reads :
    mbc2bug.readByte 0xa000 = 0x42 ∧
    (∀ (m : MBC1) (a : Nat), m.ramEnabled = false → 0xa000 ≤ a → a ≤ 0xbfff →
      m.readByte a = 0x00) ∧
    (∀ (m : MBC3) (a : Nat), m.ramEnabled = false →
      m.readViaRamBank a = some 0x00) ∧
    (∀ (m : MBC2) (a : Nat), m.ramEnabled = false → 0xa000 ≤ a → a ≤ 0xa1ff →
      m.readByte a = m.ram.getD (a - 0xa000) 0) := by
  refine ⟨by decide, ?_, ?_, ?_⟩
  · intro m a hen h1 h2
    unfold MBC1.readByte
    rw [if_neg (by omega), if_neg (by omega), if_pos (by omega)]
    unfold MBC1.readViaRamBank
    rw [hen]
    rfl
  · intro m a hen
    unfold MBC3.readViaRamBank
    rw [hen]
    rfl
  · intro m a hen h1 h2
    unfold MBC2.readByte
    rw [if_neg (by omega), if_neg (by omega), if_pos (by omega)]
    unfold MBC2.readViaRamBank
    rw [hen]
    rfl

/-- A reset RTC value for concrete MBC3 states. -/
def rtc0 : RealTimeClock :=
  { s := 0, m := 0, h := 0, dl := 0, dh := 0, zero := 0, isLocked := false }

/-- A concrete MBC3 state with RAM disabled and nonzero RAM contents. -/
def mbc3disabled : MBC3 :=
  { rom := [], ram := [0x99], rtc := rtc0, romBank := 1, ramBank := 0,
    ramEnabled := false }

/-- A concrete MBC1 state with RAM disabled and nonzero RAM contents. -/
def mbc1disabled : MBC1 :=
  { rom := [], ram := [0x77], bankMode := BankMode.Rom, bankReg := 1,
    ramEnabled := false }

/-- Witness for C6's universally quantified parts at concrete states. -/
theorem c6_disabled_ram_reads_witness :
    mbc1disabled.readByte 0xa000 = 0x00 ∧
    mbc3disabled.readViaRamBank 0xa000 = some 0x00 ∧
    mbc2bug.readByte 0xa000 = mbc2bug.ram.getD (0xa000 - 0xa000) 0 :=
  ⟨c6_disabled_ram_reads.2.1 mbc1disabled 0xa000 rfl (by norm_num) (by norm_num),
   c6_disabled_ram_reads.2.2.1 mbc3disabled 0xa000 rfl,
   c6_disabled_ram_reads.2.2.2 mbc2bug 0xa000 rfl (by norm_num) (by norm_num)⟩

/-! ## Graphics: tiles and attributes (`src/gameboy/graphics/tile.rs`) -/

/-- A tile line: two bytes encoding eight 2-bit color indices. -/
structure TileLine where
  data0 : Nat
  data1 : Nat
deriving DecidableEq, Repr

/-- `TileLine::get_color_num`: pixel 0 is bit 7, pixel 1 is bit 6, ... -/
def TileLine.getColorNum (t : TileLine) (bit : Nat) : Nat :=
  let mask := 0x80 >>> bit
  let colorH := if t.data1 &&& mask = mask then 1 else 0
  let colorL := if t.data0 &&& mask = mask then 1 else 0
  (colorH <<< 1) ||| colorL

/-- `GBColor`: the four DMG gray shades with their byte values. -/
inductive GBColor where
  | White
  | Light
  | Dark
  | Black
deriving DecidableEq, Repr

/-- The byte value of a shade (the enum discriminants in the source). -/
def GBColor.val : GBColor → Nat
  | GBColor.White => 0xff
  | GBColor.Light => 0xc0
  | GBColor.Dark => 0x60
  | GBColor.Black => 0x00

/-- `Palette`: which palette register translates a color index. -/
inductive Palette where
  | OBP0
  | OBP1
  | BG
deriving DecidableEq, Repr

/-- Sprite attributes (`Attr`). -/
structure Attr where
  priority : Bool
  yflip : Bool
  xflip : Bool
  palette : Palette
deriving DecidableEq, Repr

/-- `impl From<u8> for Attr`.  The palette test keeps the source's
`u & (1 << 4) == 1` comparison verbatim (`u & 0x10` is 0 or 0x10,
never 1). -/
def Attr.ofByte (u : Nat) : Attr :=
  { priority := u &&& (1 <<< 7) ≠ 0
    yflip := u &&& (1 <<< 6) ≠ 0
    xflip := u &&& (1 <<< 5) ≠ 0
    palette := if u &&& (1 <<< 4) = 1 then Palette.OBP1 else Palette.OBP0 }

/-! ## Graphics: LCD registers (`src/gameboy/graphics/lcd/register.rs`)

`LCDStatusRegister` and `LCDControllerRegister` each wrap one byte; they are
embedded as functions over that byte. -/

/-- `LCDMode`. -/
inductive LCDMode where
  | HBlank
  | VBlank
  | OAM
  | VRAM
deriving DecidableEq, Repr

/-- The mode's two-bit value (the enum discriminants). -/
def LCDMode.toNat : LCDMode → Nat
  | LCDMode.HBlank => 0
  | LCDMode.VBlank => 1
  | LCDMode.OAM => 2
  | LCDMode.VRAM => 3

/-- `impl From<u8> for LCDMode` on a two-bit value. -/
def LCDMode.ofBits (v : Nat) : LCDMode :=
  if v = 0 then LCDMode.HBlank
  else if v = 1 then LCDMode.VBlank
  else if v = 2 then LCDMode.OAM
  else LCDMode.VRAM

/-- `LCDStatusRegister::get_mode`: the low 2 bits. -/
def statGetMode (stat : Nat) : LCDMode :=
  LCDMode.ofBits (stat &&& 0x03)

/-- `LCDStatusRegister::set_mode`: clear then set the low 2 bits. -/
def statSetMode (stat : Nat) (mode : LCDMode) : Nat :=
  (stat &&& 0xfc) ||| mode.toNat

/-- `LCDStatusRegister::is_m0_interrupt_enabled` (bit 3). -/
def isM0InterruptEnabled (stat : Nat) : Bool := testBit stat 3

/-- `LCDStatusRegister::is_m1_interrupt_enabled` (bit 4). -/
def isM1InterruptEnabled (stat : Nat) : Bool := testBit stat 4

/-- `LCDStatusRegister::is_m2_interrupt_enabled` (bit 5). -/
def isM2InterruptEnabled (stat : Nat) : Bool := testBit stat 5

/-- `LCDStatusRegister::is_ly_interrupt_enabled` (bit 6). -/
def isLyInterruptEnabled (stat : Nat) : Bool := testBit stat 6

/-- `LCDControllerRegister::is_lcd_enabled` (LCDC bit 7). -/
def isLcdEnabled (lcdc : Nat) : Bool := testBit lcdc 7

/-- `LCDControllerRegister::get_window_tilemap_addr` (LCDC bit 6). -/
def getWindowTilemapAddr (lcdc : Nat) : Nat :=
  if testBit lcdc 6 then 0x9c00 else 0x9800

/-- `LCDControllerRegister::is_window_enabled` (LCDC bit 5). -/
def isWindowEnabled (lcdc : Nat) : Bool := testBit lcdc 5

/-- `LCDControllerRegister::get_tile_data_base_addr` (LCDC bit 4): base
address and whether tile IDs are unsigned. -/
def getTileDataBaseAddr (lcdc : Nat) : Nat × Bool :=
  if testBit lcdc 4 then (0x8000, true) else (0x8800, false)

/-- `LCDControllerRegister::get_bg_tilemap_addr` (LCDC bit 3). -/
def getBgTilemapAddr (lcdc : Nat) : Nat :=
  if testBit lcdc 3 then 0x9c00 else 0x9800

/-- `LCDControllerRegister::get_sprite_size` (LCDC bit 2): 8x16 or 8x8. -/
def getSpriteSize (lcdc : Nat) : Nat × Nat :=
  if testBit lcdc 2 then (8, 16) else (8, 8)

/-- `LCDControllerRegister::is_sprite_enabled` (LCDC bit 1). -/
def isSpriteEnabled (lcdc : Nat) : Bool := testBit lcdc 1

/-- `LCDControllerRegister::bg_display` (LCDC bit 0). -/
def bgDisplay (lcdc : Nat) : Bool := testBit lcdc 0

/-! ## Graphics: the PPU (`src/gameboy/graphics/gpu.rs`) -/

/-- The interrupt kinds (`IntFlag` in `src/gameboy/cpu/register.rs`) with
their bit numbers. -/
inductive IntFlag where
  | VBlank
  | LCDStat
  | Timer
  | Serial
  | Joypad
deriving DecidableEq, Repr

/-- The bit number of an interrupt kind. -/
def IntFlag.val : IntFlag → Nat
  | IntFlag.VBlank => 0
  | IntFlag.LCDStat => 1
  | IntFlag.Timer => 2
  | IntFlag.Serial => 3
  | IntFlag.Joypad => 4

/-- `IntReg::req` on the interrupt-flag byte: `data |= 1 << flag`. -/
def intReq (data : Nat) (flag : IntFlag) : Nat :=
  data ||| (1 <<< flag.val)

/-- The PPU state.  `data` is the 144x160 framebuffer of (r, g, b) bytes,
`ram` the 16 KiB VRAM, `oam` the 160-byte sprite table, `prios` the
per-scanline priority array of (flag, bg-color-index) pairs, and `intf` the
shared interrupt-flag register cell (`Rc<RefCell<IntReg>>` in the source,
embedded as a plain byte field the PPU's requests OR into). -/
structure GPU where
  updated : Bool
  data : Nat → Nat → Nat × Nat × Nat
  lcdc : Nat
  stat : Nat
  scrollY : Nat
  scrollX : Nat
  windowY : Nat
  windowX : Nat
  ly : Nat
  lc : Nat
  bgPalette : Nat
  objPalette0 : Nat
  objPalette1 : Nat
  ram : Nat → Nat
  ramBank : Nat
  oam : Nat → Nat
  prios : Nat → Bool × Nat
  cycles : Nat
  intf : Nat

/-- `GPU::new` (the fresh `IntReg` holds 0). -/
def GPU.new : GPU :=
  { updated := false
    data := fun _ _ => (0xff, 0xff, 0xff)
    lcdc := 0x48
    stat := 0x00
    scrollY := 0x00
    scrollX := 0x00
    windowY := 0x00
    windowX := 0x00
    ly := 0x00
    lc := 0x00
    bgPalette := 0x00
    objPalette0 := 0x00
    objPalette1 := 0x01
    ram := fun _ => 0x00
    ramBank := 0x00
    oam := fun _ => 0x00
    prios := fun _ => (true, 0)
    cycles := 0
    intf := 0x00 }

/-- `GPU::clear_screen`. -/
def GPU.clearScreen (g : GPU) : GPU :=
  { g with data := fun _ _ => (0xff, 0xff, 0xff) }

/-- `GPU::read_byte_from_ram`. -/
def GPU.readByteFromRam (g : GPU) (addr : Nat) : Nat :=
  g.ram (addr - 0x8000)

/-- `GPU::get_color`: translate a 2-bit color index through BGP/OBP0/OBP1. -/
def GPU.getColor (g : GPU) (palette : Palette) (i : Nat) : GBColor :=
  let v := g.bgPalette
  let v := if palette = Palette.OBP0 then g.objPalette0 else v
  let v := if palette = Palette.OBP1 then g.objPalette1 else v
  match (v >>> (2 * i)) &&& 0x03 with
  | 0x00 => GBColor.White
  | 0x01 => GBColor.Light
  | 0x02 => GBColor.Dark
  | _ => GBColor.Black

/-- `GPU::render_pixel`: store the gray shade at column `x` of scanline
`ly`. -/
def GPU.renderPixel (g : GPU) (x : Nat) (c : GBColor) : GPU :=
  let cv := c.val
  { g with data := fun r col =>
      if r = g.ly ∧ col = x then (cv, cv, cv) else g.data r col }

/-- `GPU::using_window`: window enabled and `window_y <= ly`. -/
def GPU.usingWindow (g : GPU) : Bool :=
  if isWindowEnabled g.lcdc then
    if g.windowY ≤ g.ly then true else false
  else false

/-- `GPU::get_window_topleft_position`: `(window_x - 7, window_y)` with
wrapping `u8` subtraction. -/
def GPU.getWindowTopleftPosition (g : GPU) : Nat × Nat :=
  ((g.windowX + 256 - 7) % 256, g.windowY)

/-- `GPU::get_tile_position` for the pixel at `line_offset` of the current
scanline (wrapping `u8` arithmetic). -/
def GPU.getTilePosition (g : GPU) (lineOffset : Nat) : Nat × Nat :=
  let wpos := g.getWindowTopleftPosition
  let posY := if g.usingWindow then (g.ly + 256 - wpos.2) % 256
    else (g.ly + g.scrollY) % 256
  let posX := (g.scrollX + lineOffset) % 256
  let posX := if g.usingWindow then
      (if wpos.1 ≤ lineOffset then lineOffset - wpos.1 else posX)
    else posX
  (posX, posY)

/-- `GPU::find_tile_data_addr`: tile-map lookup then signed/unsigned tile-ID
adjustment into the tile-data region. -/
def GPU.findTileDataAddr (g : GPU) (baseAddr row col : Nat) : Nat :=
  let tb := getTileDataBaseAddr g.lcdc
  let tileMapAddr := baseAddr + row * 32 + col
  let tileId := g.readByteFromRam tileMapAddr
  if tb.2 then tb.1 + tileId * 16
  else tb.1 + (if tileId < 128 then tileId + 128 else tileId - 128) * 16

/-- One iteration of the `render_bg` pixel loop. -/
def GPU.renderBgPixel (g : GPU) (pixel : Nat) : GPU :=
  let wpos := g.getWindowTopleftPosition
  let pos := g.getTilePosition pixel
  let tileRow := pos.2 / 8
  let tileCol := pos.1 / 8
  let bgBaseAddr := if g.usingWindow ∧ wpos.1 ≤ pixel then
      getWindowTilemapAddr g.lcdc
    else getBgTilemapAddr g.lcdc
  let tileDataAddr := g.findTileDataAddr bgBaseAddr tileRow tileCol
  let lineInTile := pos.2 % 8
  let data1 := g.readByteFromRam (tileDataAddr + lineInTile * 2)
  let data2 := g.readByteFromRam (tileDataAddr + lineInTile * 2 + 1)
  let tileLine : TileLine := { data0 := data1, data1 := data2 }
  let colorBit := pos.1 % 8
  let colorNum := tileLine.getColorNum colorBit
  let g := { g with prios := fun x =>
      if x = pixel then (false, colorNum) else g.prios x }
  let color := g.getColor Palette.BG colorNum
  g.renderPixel pixel color

/-- `GPU::render_bg`: the 160-pixel scanline loop. -/
def GPU.renderBg (g : GPU) : GPU :=
  (List.range 160).foldl GPU.renderBgPixel g

/-- One step of the inner 8-pixel loop of `render_sprite`.  `posX` is
the sprite's left screen column, `attr` its attributes, `tileLine` the
fetched tile line. -/
def GPU.renderSpritePixel (attr : Attr) (posX : Nat) (tileLine : TileLine)
    (g : GPU) (x : Nat) : GPU :=
  if 160 ≤ (posX + x) % 256 then g
  else
    let tileX := if attr.xflip then 7 - x else x
    let colorNum := tileLine.getColorNum tileX
    if colorNum = 0 then g
    else
      let p := g.prios ((posX + x) % 256)
      let skip := if p.1 then p.2 ≠ 0 else attr.priority ∧ p.2 ≠ 0
      if skip then g
      else
        let color := g.getColor attr.palette colorNum
        g.renderPixel ((posX + x) % 256) color

/-- One iteration of the 40-entry OAM loop of `render_sprite`.  The source
reads the four OAM bytes through `GPU::read_byte`, whose 0xFE00-0xFE9F arm
is `oam[addr - 0xfe00]`; the sprite addresses 0xFE00 + 4i + k (i < 40,
k < 4) always land in that arm. -/
def GPU.renderSpriteOne (g : GPU) (i : Nat) : GPU :=
  let spriteYSize := (getSpriteSize g.lcdc).2
  let index := i * 4
  let posY := (g.oam index + 256 - 16) % 256
  let posX := (g.oam (index + 1) + 256 - 8) % 256
  let tileNumber := g.oam (index + 2)
  let tileAttr := Attr.ofByte (g.oam (index + 3))
  let skipY :=
    if posY ≤ 0xff - spriteYSize + 1 then
      g.ly < posY ∨ posY + spriteYSize - 1 < g.ly
    else
      (posY + spriteYSize) % 256 - 1 < g.ly
  if skipY then g
  else if 160 ≤ posX ∧ posX ≤ 0xff - 7 then g
  else
    let lineInTile := if tileAttr.yflip then
        spriteYSize - 1 - ((g.ly + 256 - posY) % 256)
      else (g.ly + 256 - posY) % 256
    let tileDataAddr := 0x8000 + tileNumber * 16 + lineInTile * 2
    let data1 := g.readByteFromRam tileDataAddr
    let data2 := g.readByteFromRam (tileDataAddr + 1)
    let tileLine : TileLine := { data0 := data1, data1 := data2 }
    (List.range 8).foldl (GPU.renderSpritePixel tileAttr posX tileLine) g

/-- `GPU::render_sprite`: scan the 40 OAM entries in order. -/
def GPU.renderSprite (g : GPU) : GPU :=
  (List.range 40).foldl GPU.renderSpriteOne g

/-- `GPU::change_mode`: set the mode bits, then apply the entry effects of
the new mode (H-blank renders the scanline and may request LCD-STAT; V-blank
requests V-blank and may request LCD-STAT; OAM scan may request LCD-STAT). -/
def GPU.changeMode (g : GPU) (mode : LCDMode) : GPU :=
  let g := { g with stat := statSetMode g.stat mode }
  match statGetMode g.stat with
  | LCDMode.HBlank =>
    let g := if isM0InterruptEnabled g.stat then
        { g with intf := intReq g.intf IntFlag.LCDStat }
      else g
    let g := if bgDisplay g.lcdc then g.renderBg else g
    if isSpriteEnabled g.lcdc then g.renderSprite else g
  | LCDMode.VBlank =>
    let g := { g with updated := true }
    let g := { g with intf := intReq g.intf IntFlag.VBlank }
    if isM1InterruptEnabled g.stat then
      { g with intf := intReq g.intf IntFlag.LCDStat }
    else g
  | LCDMode.OAM =>
    if isM2InterruptEnabled g.stat then
      { g with intf := intReq g.intf IntFlag.LCDStat }
    else g
  | LCDMode.VRAM => g

/-- The body run once 456 dots have accumulated: advance LY (wrapping at
154), check the LY=LYC interrupt, and enter V-blank at line 144. -/
def GPU.stepLine (g : GPU) : GPU :=
  let g := { g with cycles := g.cycles - 456, ly := (g.ly + 1) % 154 }
  let g := if isLyInterruptEnabled g.stat ∧ g.ly = g.lc then
      { g with intf := intReq g.intf IntFlag.LCDStat }
    else g
  if 144 ≤ g.ly ∧ statGetMode g.stat ≠ LCDMode.VBlank then
    g.changeMode LCDMode.VBlank
  else g

/-- The per-chunk mode selection on a visible scanline (`ly < 144`). -/
def GPU.stepMode (g : GPU) : GPU :=
  if g.cycles ≤ 80 then
    (if statGetMode g.stat ≠ LCDMode.OAM then g.changeMode LCDMode.OAM else g)
  else if g.cycles ≤ 80 + 172 then
    (if statGetMode g.stat ≠ LCDMode.VRAM then g.changeMode LCDMode.VRAM else g)
  else
    (if statGetMode g.stat ≠ LCDMode.HBlank then g.changeMode LCDMode.HBlank
     else g)

/-- The `while remaining_cycles > 0` loop of `GPU::next`, consuming at most
80 dots per iteration. -/
def GPU.nextLoop (g : GPU) (remaining : Nat) : GPU :=
  if h : remaining = 0 then g
  else
    let currentCycles := if 80 ≤ remaining then 80 else remaining
    let g := { g with cycles := g.cycles + currentCycles }
    let g := if 456 ≤ g.cycles then g.stepLine else g
    let g := if g.ly < 144 then g.stepMode else g
    g.nextLoop (remaining - currentCycles)
termination_by remaining
decreasing_by
  split <;> omega

/-- `GPU::next`: advance the PPU by a T-cycle count; a disabled LCD returns
immediately. -/
def GPU.next (g : GPU) (cycles : Nat) : GPU :=
  if !(isLcdEnabled g.lcdc) then g
  else g.nextLoop cycles

/-- `GPU::read_byte` (`impl IOHandler for GPU`); the unhandled addresses are
`unreachable!`, embedded as `none`. -/
def GPU.readByte (g : GPU) (addr : Nat) : Option Nat :=
  if 0x8000 ≤ addr ∧ addr ≤ 0x9fff then
    some (g.ram (g.ramBank * 0x2000 + addr - 0x8000))
  else if 0xfe00 ≤ addr ∧ addr ≤ 0xfe9f then some (g.oam (addr - 0xfe00))
  else if addr = 0xff40 then some g.lcdc
  else if addr = 0xff41 then some g.stat
  else if addr = 0xff42 then some g.scrollY
  else if addr = 0xff43 then some g.scrollX
  else if addr = 0xff44 then some g.ly
  else if addr = 0xff45 then some g.lc
  else if addr = 0xff47 then some g.bgPalette
  else if addr = 0xff48 then some g.objPalette0
  else if addr = 0xff49 then some g.objPalette1
  else if addr = 0xff4a then some g.windowY
  else if addr = 0xff4b then some g.windowX
  else none

/-- `GPU::write_byte` (`impl IOHandler for GPU`); the unhandled addresses
are `panic!`, embedded as `none`.  The 0xFF41 arm keeps the source's
`if 0x20 != 0x00` verbatim (the `val &` is missing in the source, so the
mode-2 enable bit is set on every STAT write); the 0xFF44 arm ignores the
write; the 0xFF40 arm runs the LCD-disable reset when bit 7 of the new
value is clear. -/
def GPU.writeByte (g : GPU) (addr val : Nat) : Option GPU :=
  if 0x8000 ≤ addr ∧ addr ≤ 0x9fff then
    some { g with ram := fun x =>
      if x = g.ramBank * 0x2000 + addr - 0x8000 then val else g.ram x }
  else if 0xfe00 ≤ addr ∧ addr ≤ 0xfe9f then
    some { g with oam := fun x => if x = addr - 0xfe00 then val else g.oam x }
  else if addr = 0xff40 then
    let g := { g with lcdc := val }
    if !(isLcdEnabled g.lcdc) then
      let g := { g with
        cycles := 0
        ly := 0
        stat := statSetMode g.stat LCDMode.HBlank }
      let g := g.clearScreen
      some { g with updated := true }
    else some g
  else if addr = 0xff41 then
    let g := if val &&& 0x40 ≠ 0x00 then { g with stat := setBit g.stat 6 }
      else { g with stat := clearBit g.stat 6 }
    let g := if (0x20 : Nat) ≠ 0x00 then { g with stat := setBit g.stat 5 }
      else { g with stat := clearBit g.stat 5 }
    let g := if val &&& 0x10 ≠ 0x00 then { g with stat := setBit g.stat 4 }
      else { g with stat := clearBit g.stat 4 }
    let g := if val &&& 0x08 ≠ 0x00 then { g with stat := setBit g.stat 3 }
      else { g with stat := clearBit g.stat 3 }
    some g
  else if addr = 0xff42 then some { g with scrollY := val }
  else if addr = 0xff43 then some { g with scrollX := val }
  else if addr = 0xff44 then some g
  else if addr = 0xff45 then some { g with lc := val }
  else if addr = 0xff47 then some { g with bgPalette := val }
  else if addr = 0xff48 then some { g with objPalette0 := val }
  else if addr = 0xff49 then some { g with objPalette1 := val }
  else if addr = 0xff4a then some { g with windowY := val }
  else if addr = 0xff4b then some { g with windowX := val }
  else none

/-- C8. With LCDC bit 7 (LCD enable) clear, a PPU advance step (`GPU::next`)
is a complete no-op: the state — in particular the interrupt-flag register,
so no LCD-STAT or V-blank request — is unchanged, for every cycle count.
Since every advance while the LCD stays disabled is such a step, no PPU
advance ever requests an interrupt while the LCD is off. -/
theorem c8_lcd_disabled_no_interrupts (g : GPU) (c : Nat)
    (h : testBit g.lcdc 7 = false) :
    GPU.next g c = g ∧ (GPU.next g c).intf = g.intf := by
  have hdis : isLcdEnabled g.lcdc = false := h
  constructor
  · simp [GPU.next, hdis]
  · simp [GPU.next, hdis]

/-- Witness for C8 at the freshly constructed PPU (LCDC = 0x48, bit 7
clear) advanced by one full scanline of 456 dots. -/
theorem c8_lcd_disabled_no_interrupts_witness :
    GPU.next GPU.new 456 = GPU.new ∧ (GPU.next GPU.new 456).intf = GPU.new.intf :=
  c8_lcd_disabled_no_interrupts GPU.new 456 (by decide)

/-- A PPU state with one sprite in OAM: Y = 16 and X = 8 (screen position
(0, 0)), tile 0, attribute byte 0x10 (bit 4 set, so the claim expects OBP1).
Tile 0's first line has color index 1 in its leftmost pixel.  OBP0 maps
index 1 to Dark (0x60), OBP1 maps it to Light (0xC0). -/
def gSpr : GPU :=
  { GPU.new with
    oam := fun a => if a = 0 then 16 else if a = 1 then 8
      else if a = 3 then 0x10 else 0
    ram := fun a => if a = 0 then 0x80 else 0
    objPalette0 := 0x08
    objPalette1 := 0x04 }

/-- C3 (code bug).  `Attr::from` compares `u & (1 << 4)` against 1, which is
never true, so every sprite's palette is OBP0 even when attribute bit 4 is
set: rendering the sprite with attribute 0x10 paints the pixel with OBP0's
shade 0x60, not OBP1's 0xC0 as the claim (and the source's own doc comment)
requires. -/
theorem c3_sprite_palette_ignores_bit4 :
    Nat.testBit 0x10 4 = true ∧
    (Attr.ofByte 0x10).palette = Palette.OBP0 ∧
    gSpr.renderSprite.data 0 0 = (0x60, 0x60, 0x60) ∧
    (gSpr.getColor Palette.OBP0 1).val = 0x60 ∧
    (gSpr.getColor Palette.OBP1 1).val = 0xc0 := by
  refine ⟨by decide, by decide, by decide, by decide, by decide⟩

/-- C4 (code bug).  The STAT write arm of `GPU::write_byte` tests
`if 0x20 != 0x00` instead of `val & 0x20 != 0x00`, so ANY write to 0xFF41
sets the mode-2 (OAM-scan) interrupt enable.  After writing 0x00 (bit 5
clear) to STAT of a fresh PPU — whose mode-2 enable starts clear — the
enable bit is set and a transition into OAM scan requests the LCD-STAT
interrupt, contradicting the claim that the request tracks bit 5 of the
written value. -/
theorem c4_stat_write_always_enables_m2 :
    isM2InterruptEnabled GPU.new.stat = false ∧
    Nat.testBit 0x00 5 = false ∧
    (GPU.new.writeByte 0xff41 0x00).isSome = true ∧
    (∀ g', GPU.new.writeByte 0xff41 0x00 = some g' →
      isM2InterruptEnabled g'.stat = true ∧
      Nat.testBit ((g'.changeMode LCDMode.OAM).intf) 1 = true ∧
      Nat.testBit GPU.new.intf 1 = false) := by
  refine ⟨by decide, by decide, by rfl, ?_⟩
  intro g' h
  have h2 : GPU.new.writeByte 0xff41 0x00 = some { GPU.new with stat := 32 } := by
    rfl
  rw [h2] at h
  have hg : g' = { GPU.new with stat := 32 } := (Option.some.inj h).symm
  subst hg
  refine ⟨by decide, by decide, by decide⟩

/-- The PPU state produced by writing 0x00 to STAT of a fresh PPU. -/
def gpuStat32 : GPU := { GPU.new with stat := 32 }

/-- Witness for C4's universally quantified part at the state actually
produced by the STAT write. -/
theorem c4_stat_write_always_enables_m2_witness :
    isM2InterruptEnabled gpuStat32.stat = true ∧
    Nat.testBit ((gpuStat32.changeMode LCDMode.OAM).intf) 1 = true ∧
    Nat.testBit GPU.new.intf 1 = false :=
  c4_stat_write_always_enables_m2.2.2.2 gpuStat32 (by rfl)

/-! ## Joypad (`src/gameboy/joypad.rs`) and timer

Only the memory-mapped `IOHandler` face of the joypad is needed here; the
host-driven `keydown`/`keyup` paths (which share the interrupt-flag cell)
are not involved in the verified claims.  The joypad's `intf` handle is the
shared cell embedded as `GPU.intf`. -/

/-- The joypad register state. -/
structure Joypad where
  reg : Nat
  selectMask : Nat

/-- `Joypad::new`. -/
def Joypad.new : Joypad :=
  { reg := 0xff, selectMask := 0xff }

/-- `Joypad::read_byte` (the address argument is ignored in the source). -/
def Joypad.readByte (j : Joypad) : Nat :=
  if j.selectMask &&& 0x10 = 0 then
    (if j.reg &&& 0x10 = 0 then j.reg else 0xff)
  else if j.selectMask &&& 0x20 = 0 then
    (if j.reg &&& 0x20 = 0 then j.reg else 0xff)
  else 0xff

/-- `Joypad::write_byte`: store the selector. -/
def Joypad.writeByte (j : Joypad) (v : Nat) : Joypad :=
  { j with selectMask := v }

/-- Modelled from the spec: the timer.  `src/gameboy/timer.rs` is declared
in `mod.rs` but missing from the source tree; per spec §4.6 it exposes
DIV/TIMA/TMA/TAC at 0xFF04-0xFF07, and a write to DIV resets it to 0. -/
structure Timer where
  div : Nat
  tima : Nat
  tma : Nat
  tac : Nat

/-- Modelled from the spec: `Timer::get` returns the register at
0xFF04-0xFF07. -/
def Timer.get (t : Timer) (a : Nat) : Nat :=
  if a = 0xff04 then t.div
  else if a = 0xff05 then t.tima
  else if a = 0xff06 then t.tma
  else if a = 0xff07 then t.tac
  else 0

/-- Modelled from the spec: `Timer::set`; a DIV write resets it to 0. -/
def Timer.set (t : Timer) (a v : Nat) : Timer :=
  if a = 0xff04 then { t with div := 0 }
  else if a = 0xff05 then { t with tima := v }
  else if a = 0xff06 then { t with tma := v }
  else if a = 0xff07 then { t with tac := v }
  else t

/-! ## MMU (`src/gameboy/mmu.rs`)

`Mmunit` holds the cartridge behind `Box<dyn Cartridge>`; it is embedded as
a type parameter `C` with the cartridge's `read_byte`/`write_byte` methods
passed as functions `cr`/`cw`.  The shared interrupt-flag cell
(`Rc<RefCell<IntReg>>`) is the `GPU.intf` field; the MMU's 0xFF0F accesses
go to it. -/

structure Mmunit (C : Type) where
  cartridge : C
  gpu : GPU
  joypad : Joypad
  timer : Timer
  inte : Nat
  hram : Nat → Nat
  wram : Nat → Nat
  wramBank : Nat

/-- `Mmunit::read_byte` (`impl IOHandler for Mmunit`).  GPU-routed addresses
the GPU does not handle (0xFF4F, 0xFF68-0xFF6B) hit its `unreachable!`
(`none`). -/
def Mmunit.readByte {C : Type} (cr : C → Nat → Nat) (s : Mmunit C) (a : Nat) :
    Option Nat :=
  if a ≤ 0x7fff then some (cr s.cartridge a)
  else if a ≤ 0x9fff then s.gpu.readByte a
  else if a ≤ 0xbfff then some (cr s.cartridge a)
  else if a ≤ 0xcfff then some (s.wram (a - 0xc000))
  else if a ≤ 0xdfff then some (s.wram (a - 0xd000 + 0x1000 * s.wramBank))
  else if a ≤ 0xefff then some (s.wram (a - 0xe000))
  else if a ≤ 0xfdff then some (s.wram (a - 0xf000 + 0x1000 * s.wramBank))
  else if a ≤ 0xfe9f then s.gpu.readByte a
  else if a ≤ 0xfeff then some 0x00
  else if a = 0xff00 then some s.joypad.readByte
  else if a = 0xff01 ∨ a = 0xff02 then some 0x00
  else if 0xff04 ≤ a ∧ a ≤ 0xff07 then some (s.timer.get a)
  else if a = 0xff0f then some s.gpu.intf
  else if 0xff10 ≤ a ∧ a ≤ 0xff3f then some 0x00
  else if a = 0xff4d then some 0x00
  else if (0xff40 ≤ a ∧ a ≤ 0xff45) ∨ (0xff47 ≤ a ∧ a ≤ 0xff4b) ∨ a = 0xff4f then
    s.gpu.readByte a
  else if 0xff51 ≤ a ∧ a ≤ 0xff55 then some 0x00
  else if 0xff68 ≤ a ∧ a ≤ 0xff6b then s.gpu.readByte a
  else if a = 0xff70 then some s.wramBank
  else if 0xff80 ≤ a ∧ a ≤ 0xfffe then some (s.hram (a - 0xff80))
  else if a = 0xffff then some s.inte
  else some 0x00

/-- One step of the DMA copy loop: `let b = self.read_byte(base + i);
self.write_byte(0xfe00 + i, b)`.  The inner write's address 0xFE00 + i
(i < 0xA0) always lands in the MMU's OAM arm, which forwards to
`GPU::write_byte`; that one unfolding is inlined here. -/
def Mmunit.dmaStep {C : Type} (cr : C → Nat → Nat) (baseAddr : Nat)
    (st : Mmunit C) (i : Nat) : Option (Mmunit C) :=
  match Mmunit.readByte cr st (baseAddr + i) with
  | none => none
  | some b =>
    match st.gpu.writeByte (0xfe00 + i) b with
    | some g => some { st with gpu := g }
    | none => none

/-- `Mmunit::write_byte` (`impl IOHandler for Mmunit`).  The 0xFF46 arm is
the DMA block copy of 0xA0 bytes into OAM. -/
def Mmunit.writeByte {C : Type} (cr : C → Nat → Nat) (cw : C → Nat → Nat → C)
    (s : Mmunit C) (a v : Nat) : Option (Mmunit C) :=
  if a ≤ 0x7fff then some { s with cartridge := cw s.cartridge a v }
  else if a ≤ 0x9fff then (s.gpu.writeByte a v).map fun g => { s with gpu := g }
  else if a ≤ 0xbfff then some { s with cartridge := cw s.cartridge a v }
  else if a ≤ 0xcfff then
    some { s with wram := fun x => if x = a - 0xc000 then v else s.wram x }
  else if a ≤ 0xdfff then
    some { s with wram := fun x =>
      if x = a - 0xd000 + 0x1000 * s.wramBank then v else s.wram x }
  else if a ≤ 0xefff then
    some { s with wram := fun x => if x = a - 0xe000 then v else s.wram x }
  else if a ≤ 0xfdff then
    some { s with wram := fun x =>
      if x = a - 0xf000 + 0x1000 * s.wramBank then v else s.wram x }
  else if a ≤ 0xfe9f then (s.gpu.writeByte a v).map fun g => { s with gpu := g }
  else if a ≤ 0xfeff then some s
  else if a = 0xff00 then some { s with joypad := s.joypad.writeByte v }
  else if a = 0xff01 ∨ a = 0xff02 then some s
  else if 0xff04 ≤ a ∧ a ≤ 0xff07 then some { s with timer := s.timer.set a v }
  else if 0xff10 ≤ a ∧ a ≤ 0xff3f then some s
  else if a = 0xff46 then (List.range 0xa0).foldlM (Mmunit.dmaStep cr (v <<< 8)) s
  else if a = 0xff4d then some s
  else if (0xff40 ≤ a ∧ a ≤ 0xff45) ∨ (0xff47 ≤ a ∧ a ≤ 0xff4b) ∨ a = 0xff4f then
    (s.gpu.writeByte a v).map fun g => { s with gpu := g }
  else if 0xff51 ≤ a ∧ a ≤ 0xff55 then some s
  else if 0xff68 ≤ a ∧ a ≤ 0xff6b then
    (s.gpu.writeByte a v).map fun g => { s with gpu := g }
  else if a = 0xff0f then some { s with gpu := { s.gpu with intf := v } }
  else if a = 0xff70 then
    some { s with wramBank := match v &&& 0x7 with | 0 => 1 | n => n }
  else if 0xff80 ≤ a ∧ a ≤ 0xfffe then
    some { s with hram := fun x => if x = a - 0xff80 then v else s.hram x }
  else if a = 0xffff then some { s with inte := v }
  else some s

/-- A successful `GPU::write_byte` leaves LY unchanged except through the
LCD-disable path of the 0xFF40 arm, which resets LY to 0 exactly when bit 7
of the written value is clear. -/
theorem gpuWriteByte_ly (g : GPU) (a v : Nat) (g' : GPU)
    (h : g.writeByte a v = some g') :
    g'.ly = g.ly ∨ (a = 0xff40 ∧ testBit v 7 = false ∧ g'.ly = 0) := by
  unfold GPU.writeByte at h
  by_cases c1 : 0x8000 ≤ a ∧ a ≤ 0x9fff
  · rw [if_pos c1] at h
    left; rw [← Option.some.inj h]
  rw [if_neg c1] at h
  by_cases c2 : 0xfe00 ≤ a ∧ a ≤ 0xfe9f
  · rw [if_pos c2] at h
    left; rw [← Option.some.inj h]
  rw [if_neg c2] at h
  by_cases c3 : a = 0xff40
  · rw [if_pos c3] at h
    by_cases c4 : (!(isLcdEnabled ({ g with lcdc := v } : GPU).lcdc)) = true
    · rw [if_pos c4] at h
      rw [← Option.some.inj h]
      right
      refine ⟨c3, ?_, rfl⟩
      have hb : isLcdEnabled v = false := by simpa using c4
      simpa [isLcdEnabled] using hb
    · rw [if_neg c4] at h
      left; rw [← Option.some.inj h]
  rw [if_neg c3] at h
  by_cases c5 : a = 0xff41
  · rw [if_pos c5] at h
    left; rw [← Option.some.inj h]
    simp only [apply_ite (fun (x : GPU) => x.ly)]
    simp
  rw [if_neg c5] at h
  by_cases c6 : a = 0xff42
  · rw [if_pos c6] at h
    left; rw [← Option.some.inj h]
  rw [if_neg c6] at h
  by_cases c7 : a = 0xff43
  · rw [if_pos c7] at h
    left; rw [← Option.some.inj h]
  rw [if_neg c7] at h
  by_cases c8 : a = 0xff44
  · rw [if_pos c8] at h
    left; rw [← Option.some.inj h]
  rw [if_neg c8] at h
  by_cases c9 : a = 0xff45
  · rw [if_pos c9] at h
    left; rw [← Option.some.inj h]
  rw [if_neg c9] at h
  by_cases c10 : a = 0xff47
  · rw [if_pos c10] at h
    left; rw [← Option.some.inj h]
  rw [if_neg c10] at h
  by_cases c11 : a = 0xff48
  · rw [if_pos c11] at h
    left; rw [← Option.some.inj h]
  rw [if_neg c11] at h
  by_cases c12 : a = 0xff49
  · rw [if_pos c12] at h
    left; rw [← Option.some.inj h]
  rw [if_neg c12] at h
  by_cases c13 : a = 0xff4a
  · rw [if_pos c13] at h
    left; rw [← Option.some.inj h]
  rw [if_neg c13] at h
  by_cases c14 : a = 0xff4b
  · rw [if_pos c14] at h
    left; rw [← Option.some.inj h]
  rw [if_neg c14] at h
  exact Option.noConfusion h

/-- A successful `GPU::write_byte` at an OAM address leaves LY unchanged. -/
theorem gpuWriteByte_oam_ly (g : GPU) (a v : Nat) (g' : GPU)
    (h1 : 0xfe00 ≤ a) (h2 : a ≤ 0xfe9f) (h : g.writeByte a v = some g') :
    g'.ly = g.ly := by
  unfold GPU.writeByte at h
  have hc1 : ¬(0x8000 ≤ a ∧ a ≤ 0x9fff) := by omega
  have hc2 : 0xfe00 ≤ a ∧ a ≤ 0xfe9f := ⟨h1, h2⟩
  rw [if_neg hc1, if_pos hc2] at h
  rw [← Option.some.inj h]

/-- The DMA copy loop leaves LY unchanged (each step writes one OAM byte). -/
theorem dmaFold_ly {C : Type} (cr : C → Nat → Nat) (base : Nat) :
    ∀ (l : List Nat), (∀ i ∈ l, i < 0xa0) → ∀ (st st' : Mmunit C),
      l.foldlM (Mmunit.dmaStep cr base) st = some st' →
      st'.gpu.ly = st.gpu.ly := by
  intro l
  induction l with
  | nil =>
    intro _ st st' h
    simp only [List.foldlM_nil] at h
    rw [← Option.some.inj h]
  | cons i l ih =>
    intro hmem st st' h
    rw [List.foldlM_cons] at h
    cases hstep : Mmunit.dmaStep cr base st i with
    | none =>
      rw [hstep] at h
      exact Option.noConfusion h
    | some st1 =>
      rw [hstep] at h
      have h2 : l.foldlM (Mmunit.dmaStep cr base) st1 = some st' := h
      have hrest := ih (fun j hj => hmem j (List.mem_cons_of_mem _ hj)) st1 st' h2
      have hone : st1.gpu.ly = st.gpu.ly := by
        unfold Mmunit.dmaStep at hstep
        cases hr : Mmunit.readByte cr st (base + i) with
        | none =>
          rw [hr] at hstep
          exact Option.noConfusion hstep
        | some b =>
          rw [hr] at hstep
          have hstep2 : (match st.gpu.writeByte (0xfe00 + i) b with
              | some g => some { st with gpu := g }
              | none => none) = some st1 := hstep
          cases hw : st.gpu.writeByte (0xfe00 + i) b with
          | none =>
            rw [hw] at hstep2
            exact Option.noConfusion hstep2
          | some gg =>
            rw [hw] at hstep2
            rw [← Option.some.inj hstep2]
            have hi : i < 0xa0 := hmem i (List.mem_cons_self i l)
            exact gpuWriteByte_oam_ly st.gpu (0xfe00 + i) b gg (by omega)
              (by omega) hw
      rw [hrest, hone]

/-- C10. Writing any value to LY (0xFF44) through the MMU is ignored: the
entire MMU state (cartridge, PPU including LY, WRAM, HRAM, timer, joypad,
IF/IE) is returned unchanged.  Moreover every successful MMU byte write
leaves LY unchanged except a write to LCDC (0xFF40) whose bit 7 is clear,
which resets LY to 0 (the LCD-disable path); so within the MMU's write
interface LY can change only through that path, all other LY changes coming
from PPU dot-counter advancement (`GPU::next`). -/
theorem c10_ly_write_ignored {C : Type} (cr : C → Nat → Nat)
    (cw : C → Nat → Nat → C) (s : Mmunit C) (v : Nat) :
    Mmunit.writeByte cr cw s 0xff44 v = some s ∧
    (∀ (a w : Nat) (s' : Mmunit C), Mmunit.writeByte cr cw s a w = some s' →
      s'.gpu.ly = s.gpu.ly ∨
      (a = 0xff40 ∧ testBit w 7 = false ∧ s'.gpu.ly = 0)) := by
  constructor
  · simp [Mmunit.writeByte, GPU.writeByte]
  · intro a w s' h
    unfold Mmunit.writeByte at h
    by_cases d1 : a ≤ 0x7fff
    · rw [if_pos d1] at h
      left; rw [← Option.some.inj h]
    rw [if_neg d1] at h
    by_cases d2 : a ≤ 0x9fff
    · rw [if_pos d2] at h
      obtain ⟨g, hg, hfg⟩ := Option.map_eq_some'.mp h
      rcases gpuWriteByte_ly s.gpu a w g hg with hly | ⟨ha, hb, hc⟩
      · left; rw [← hfg]; exact hly
      · right; rw [← hfg]; exact ⟨ha, hb, hc⟩
    rw [if_neg d2] at h
    by_cases d3 : a ≤ 0xbfff
    · rw [if_pos d3] at h
      left; rw [← Option.some.inj h]
    rw [if_neg d3] at h
    by_cases d4 : a ≤ 0xcfff
    · rw [if_pos d4] at h
      left; rw [← Option.some.inj h]
    rw [if_neg d4] at h
    by_cases d5 : a ≤ 0xdfff
    · rw [if_pos d5] at h
      left; rw [← Option.some.inj h]
    rw [if_neg d5] at h
    by_cases d6 : a ≤ 0xefff
    · rw [if_pos d6] at h
      left; rw [← Option.some.inj h]
    rw [if_neg d6] at h
    by_cases d7 : a ≤ 0xfdff
    · rw [if_pos d7] at h
      left; rw [← Option.some.inj h]
    rw [if_neg d7] at h
    by_cases d8 : a ≤ 0xfe9f
    · rw [if_pos d8] at h
      obtain ⟨g, hg, hfg⟩ := Option.map_eq_some'.mp h
      rcases gpuWriteByte_ly s.gpu a w g hg with hly | ⟨ha, hb, hc⟩
      · left; rw [← hfg]; exact hly
      · right; rw [← hfg]; exact ⟨ha, hb, hc⟩
    rw [if_neg d8] at h
    by_cases d9 : a ≤ 0xfeff
    · rw [if_pos d9] at h
      left; rw [← Option.some.inj h]
    rw [if_neg d9] at h
    by_cases d10 : a = 0xff00
    · rw [if_pos d10] at h
      left; rw [← Option.some.inj h]
    rw [if_neg d10] at h
    by_cases d11 : a = 0xff01 ∨ a = 0xff02
    · rw [if_pos d11] at h
      left; rw [← Option.some.inj h]
    rw [if_neg d11] at h
    by_cases d12 : 0xff04 ≤ a ∧ a ≤ 0xff07
    · rw [if_pos d12] at h
      left; rw [← Option.some.inj h]
    rw [if_neg d12] at h
    by_cases d13 : 0xff10 ≤ a ∧ a ≤ 0xff3f
    · rw [if_pos d13] at h
      left; rw [← Option.some.inj h]
    rw [if_neg d13] at h
    by_cases d14 : a = 0xff46
    · rw [if_pos d14] at h
      left
      exact dmaFold_ly cr _ _ (fun i hi => List.mem_range.mp hi) s s' h
    rw [if_neg d14] at h
    by_cases d15 : a = 0xff4d
    · rw [if_pos d15] at h
      left; rw [← Option.some.inj h]
    rw [if_neg d15] at h
    by_cases d16 : (0xff40 ≤ a ∧ a ≤ 0xff45) ∨ (0xff47 ≤ a ∧ a ≤ 0xff4b) ∨ a = 0xff4f
    · rw [if_pos d16] at h
      obtain ⟨g, hg, hfg⟩ := Option.map_eq_some'.mp h
      rcases gpuWriteByte_ly s.gpu a w g hg with hly | ⟨ha, hb, hc⟩
      · left; rw [← hfg]; exact hly
      · right; rw [← hfg]; exact ⟨ha, hb, hc⟩
    rw [if_neg d16] at h
    by_cases d17 : 0xff51 ≤ a ∧ a ≤ 0xff55
    · rw [if_pos d17] at h
      left; rw [← Option.some.inj h]
    rw [if_neg d17] at h
    by_cases d18 : 0xff68 ≤ a ∧ a ≤ 0xff6b
    · rw [if_pos d18] at h
      obtain ⟨g, hg, hfg⟩ := Option.map_eq_some'.mp h
      rcases gpuWriteByte_ly s.gpu a w g hg with hly | ⟨ha, hb, hc⟩
      · left; rw [← hfg]; exact hly
      · right; rw [← hfg]; exact ⟨ha, hb, hc⟩
    rw [if_neg d18] at h
    by_cases d19 : a = 0xff0f
    · rw [if_pos d19] at h
      left; rw [← Option.some.inj h]
    rw [if_neg d19] at h
    by_cases d20 : a = 0xff70
    · rw [if_pos d20] at h
      left; rw [← Option.some.inj h]
    rw [if_neg d20] at h
    by_cases d21 : 0xff80 ≤ a ∧ a ≤ 0xfffe
    · rw [if_pos d21] at h
      left; rw [← Option.some.inj h]
    rw [if_neg d21] at h
    by_cases d22 : a = 0xffff
    · rw [if_pos d22] at h
      left; rw [← Option.some.inj h]
    rw [if_neg d22] at h
    left; rw [← Option.some.inj h]

/-- A concrete MMU state over a trivial cartridge. -/
def mmu0 : Mmunit Unit :=
  { cartridge := ()
    gpu := GPU.new
    joypad := Joypad.new
    timer := { div := 0, tima := 0, tma := 0, tac := 0 }
    inte := 0
    hram := fun _ => 0
    wram := fun _ => 0
    wramBank := 1 }

/-- The MMU state after writing 0x12 to SCY (0xFF42). -/
def mmu0s : Mmunit Unit :=
  { mmu0 with gpu := { mmu0.gpu with scrollY := 0x12 } }

/-- Witness for C10: the LY write is ignored on `mmu0`, and the universally
quantified part instantiated at a successful SCY write. -/
theorem c10_ly_write_ignored_witness :
    Mmunit.writeByte (fun _ _ => 0) (fun c _ _ => c) mmu0 0xff44 0x7b = some mmu0 ∧
    (mmu0s.gpu.ly = mmu0.gpu.ly ∨
      ((0xff42 : Nat) = 0xff40 ∧ testBit 0x12 7 = false ∧ mmu0s.gpu.ly = 0)) :=
  ⟨(c10_ly_write_ignored (fun _ _ => 0) (fun c _ _ => c) mmu0 0x7b).1,
   (c10_ly_write_ignored (fun _ _ => 0) (fun c _ _ => c) mmu0 0x7b).2
     0xff42 0x12 mmu0s (by rfl)⟩
